import Mathlib

/-!
# Verification of the tingly-box differential test engine

Shallow embedding of the relevant parts of the repository:

* `src/tests/differential.py` — similarity scorer (`_calculate_similarity`,
  built on Python's `difflib.SequenceMatcher` with its default `isjunk=None`
  and `autojunk=True`), token estimate (`_count_tokens_estimate`), response
  normalization and the differential verdict logic.
* `src/tests/backend_validation.py` — `_validate_field_type`.
* `src/tests/providers/config.py` — `Provider.from_dict` and the provider
  part of `ConfigLoader._load_json`.

Python floats are modelled as `ℚ` (all constants and arithmetic in the
claims are far from any float-rounding boundary), Python strings as Lean
`String` (both are sequences of unicode code points), and machine-level
effects (HTTP, wall-clock time) as explicit inputs.
-/

namespace Tingly

/-! ## difflib.SequenceMatcher (CPython, `isjunk=None`, `autojunk=True`)

With `isjunk=None` the junk set `bjunk` is empty, so the junk-extension
loops of `find_longest_match` never fire and `isbjunk` is constantly
false; only the *popular* ("autojunk") purge of `b2j` remains, which
applies when `len(b) >= 200` to elements occurring more than
`len(b) // 100 + 1` times. -/

/-- Default character for out-of-range `getD` accesses.  Every access the
algorithm performs is in range (guarded by the loop bounds), so the
default is never compared against a real character. -/
def cdef : Char := Char.ofNat 0

/-- `autojunk` popularity test on sequence `b`: `len(b) >= 200` and the
element occurs more than `len(b) // 100 + 1` times. -/
def popularChar (b : List Char) (c : Char) : Bool :=
  decide (200 ≤ b.length) && decide (b.length / 100 + 1 < b.count c)

/-- `b2j[c]`: ascending list of positions of `c` in `b`, empty when `c`
was purged as popular (mirrors `SequenceMatcher.__chain_b`). -/
def b2jPos (b : List Char) (c : Char) : List Nat :=
  if popularChar b c then []
  else (List.range b.length).filter (fun j => b.getD j cdef == c)

/-- The running best block of `find_longest_match`:
`a[besti:besti+bestsize] == b[bestj:bestj+bestsize]`. -/
structure Best where
  besti : Nat
  bestj : Nat
  bestsize : Nat
deriving Repr, DecidableEq

/-- Inner loop of the `find_longest_match` scan, over the (ascending)
position list `js` of `a[i]` in `b`: `k = j2len.get(j-1, 0) + 1`,
`newj2len[j] = k`, and the best block is updated when `k > bestsize`
(blocks end at `(i, j)`, hence start at `(i-k+1, j-k+1)`; `k ≤ i+1` and
`k ≤ j+1` always hold, so the `Nat` subtraction is exact). -/
def innerLoop (old : Nat → Nat) (i : Nat) :
    List Nat → (Nat → Nat) → Best → ((Nat → Nat) × Best)
  | [], acc, best => (acc, best)
  | j :: js, acc, best =>
    let k := (if j = 0 then 0 else old (j - 1)) + 1
    let acc' : Nat → Nat := fun j' => if j' = j then k else acc j'
    let best' : Best := if best.bestsize < k then ⟨i + 1 - k, j + 1 - k, k⟩ else best
    innerLoop old i js acc' best'

/-- Outer loop of the scan, over `i in range(alo, ahi)`.  The Python
`if j < blo: continue` / `if j >= bhi: break` bound checks are the
`filter` / `takeWhile` below (iteration stops at the first `j ≥ bhi`
and skips every `j < blo`). -/
def scanLoop (a b : List Char) (blo bhi : Nat) :
    List Nat → (Nat → Nat) → Best → Best
  | [], _, best => best
  | i :: is, j2len, best =>
    let js := ((b2jPos b (a.getD i cdef)).takeWhile (fun j => decide (j < bhi))).filter
      (fun j => decide (blo ≤ j))
    let step := innerLoop j2len i js (fun _ => 0) best
    scanLoop a b blo bhi is step.1 step.2

/-- First extension loop: widen the best block to the left over equal,
non-junk elements (`bjunk` is empty, so only equality is checked).
`while besti > alo and bestj > blo and a[besti-1] == b[bestj-1]`,
written as structural recursion on `besti` (the loop guard is false at
`besti = 0`, since `alo ≥ 0`). -/
def extendBack (a b : List Char) (alo blo : Nat) : Nat → Nat → Nat → Best
  | 0, bestj, bestsize => ⟨0, bestj, bestsize⟩
  | besti + 1, bestj, bestsize =>
    if alo < besti + 1 ∧ blo < bestj ∧ a.getD besti cdef = b.getD (bestj - 1) cdef then
      extendBack a b alo blo besti (bestj - 1) (bestsize + 1)
    else ⟨besti + 1, bestj, bestsize⟩

/-- Second extension loop:
`while besti+bestsize < ahi and bestj+bestsize < bhi and a[besti+bestsize] == b[bestj+bestsize]`,
written as structural recursion on fuel.  Each iteration requires
`besti + bestsize < ahi`, so the loop runs at most `ahi` times and any
fuel `≥ ahi` gives the loop's exact result. -/
def extendFwdF (a b : List Char) (ahi bhi : Nat) (besti bestj : Nat) : Nat → Nat → Nat
  | 0, bestsize => bestsize
  | fuel + 1, bestsize =>
    if besti + bestsize < ahi ∧ bestj + bestsize < bhi ∧
        a.getD (besti + bestsize) cdef = b.getD (bestj + bestsize) cdef then
      extendFwdF a b ahi bhi besti bestj fuel (bestsize + 1)
    else bestsize

/-- The second extension loop run with sufficient fuel. -/
def extendFwd (a b : List Char) (ahi bhi : Nat) (besti bestj bestsize : Nat) : Nat :=
  extendFwdF a b ahi bhi besti bestj ahi bestsize

/-- `SequenceMatcher.find_longest_match(alo, ahi, blo, bhi)`.  The two
junk-extension loops are omitted: with `isjunk=None` the junk set is
empty and they are no-ops. -/
def findLongestMatch (a b : List Char) (alo ahi blo bhi : Nat) : Best :=
  let scanned := scanLoop a b blo bhi (List.range' alo (ahi - alo)) (fun _ => 0) ⟨alo, blo, 0⟩
  let back := extendBack a b alo blo scanned.besti scanned.bestj scanned.bestsize
  ⟨back.besti, back.bestj, extendFwd a b ahi bhi back.besti back.bestj back.bestsize⟩

/-- Total size of all matching blocks found by the recursive splitting of
`get_matching_blocks` (the queue order and the adjacent-block merge do not
change the total, which is all `ratio()` consumes).  The recursion depth
is bounded by the interval sizes, so any fuel `≥ ahi + bhi + 1` computes
the exact total. -/
def matchTotal (a b : List Char) : Nat → Nat → Nat → Nat → Nat → Nat
  | 0, _, _, _, _ => 0
  | fuel + 1, alo, ahi, blo, bhi =>
    let m := findLongestMatch a b alo ahi blo bhi
    if m.bestsize = 0 then 0
    else
      matchTotal a b fuel alo m.besti blo m.bestj + m.bestsize +
        matchTotal a b fuel (m.besti + m.bestsize) ahi (m.bestj + m.bestsize) bhi

/-- `SequenceMatcher.ratio()`: `2.0 * M / T` where `M` is the total
matched size and `T = len(a) + len(b)` (via `_calculate_ratio`, which
returns `1.0` when `T == 0`). -/
def ratioQ (a b : List Char) : ℚ :=
  let total := a.length + b.length
  if total = 0 then 1
  else 2 * (matchTotal a b (total + 1) 0 a.length 0 b.length : ℚ) / (total : ℚ)

/-- `DifferentialTestSuite._calculate_similarity` (`differential.py`,
lines 179-185): both falsy ⇒ 1.0, one falsy ⇒ 0.0, otherwise
`SequenceMatcher(None, text1, text2).ratio()`. -/
def calculateSimilarity (text1 text2 : String) : ℚ :=
  if text1.isEmpty && text2.isEmpty then 1
  else if text1.isEmpty || text2.isEmpty then 0
  else ratioQ text1.data text2.data

/-- `DifferentialTestSuite._count_tokens_estimate` (`differential.py`,
lines 187-189): `max(1, len(text) // 4)`. -/
def countTokensEstimate (text : String) : Nat :=
  max 1 (text.length / 4)

/-! ### Proof-support definitions for the SequenceMatcher

`posList l i` is the `b2j` entry consulted at scan step `i` when both
sequences are `l`, and `chainD l i j` is exactly the value the scan
stores in `newj2len[j]` at step `i` (the length of the run of matches
ending at `(i, j)`, zero when `l[i]` has no `b2j` entry at `j`). -/

/-- The `b2j` position list consulted at scan step `i` when `a = b = l`. -/
def posList (l : List Char) (i : Nat) : List Nat := b2jPos l (l.getD i cdef)

/-- The chain value stored in `newj2len[j]` at scan step `i` of
`find_longest_match(0, n, 0, n)` with `a = b = l`. -/
def chainD (l : List Char) : Nat → Nat → Nat
  | 0, j => if j ∈ posList l 0 then 1 else 0
  | i + 1, j =>
    if j ∈ posList l (i + 1) then
      (match j with
       | 0 => 0
       | j' + 1 => chainD l i j') + 1
    else 0

/-- The best block lies inside the window `[alo, ahi) × [blo, bhi)`. -/
def BestIn (alo ahi blo bhi : Nat) (v : Best) : Prop :=
  alo ≤ v.besti ∧ v.besti + v.bestsize ≤ ahi ∧ blo ≤ v.bestj ∧ v.bestj + v.bestsize ≤ bhi

/-! ## A model of decoded JSON values and the Python operations on them

`JValue` models a value decoded by `json.load`: object keys are distinct
(Python dicts), numbers are modelled as `ℚ`.  Operations that Python
performs on such values (`.get`, subscript, `in`, truthiness, iteration)
are modelled exactly, including the exceptions they raise on values of
the wrong shape. -/

inductive JValue where
  | null
  | bool (b : Bool)
  | num (q : ℚ)
  | str (s : String)
  | arr (xs : List JValue)
  | obj (fields : List (String × JValue))

/-- Python exceptions that the modelled operations can raise. -/
inductive PyErr where
  | attributeError
  | typeError
  | indexError
  | keyError
  | valueError
deriving Repr, DecidableEq

/-- Python truthiness of a decoded JSON value: `None`, `False`, `0`,
`""`, `[]` and `\x7b\x7d` are falsy. -/
def pyFalsy : JValue → Bool
  | .null => true
  | .bool b => !b
  | .num q => q == 0
  | .str s => s.isEmpty
  | .arr xs => xs.isEmpty
  | .obj fs => fs.isEmpty

/-- `x or y` on a possibly-falsy value: Python's `v or dflt`. -/
def pyOr (v dflt : JValue) : JValue := if pyFalsy v then dflt else v

/-- Key lookup in an object's field list (keys are distinct). -/
def pyGet (fields : List (String × JValue)) (k : String) : Option JValue :=
  (fields.find? (fun kv => kv.1 == k)).map (fun kv => kv.2)

/-- `d.get(k, dflt)` on an object's field list. -/
def pyGetD (fields : List (String × JValue)) (k : String) (dflt : JValue) : JValue :=
  (pyGet fields k).getD dflt

/-- `v.get(k, dflt)`: `AttributeError` when `v` is not a dict. -/
def pyDictGetD (v : JValue) (k : String) (dflt : JValue) : Except PyErr JValue :=
  match v with
  | .obj fs => .ok (pyGetD fs k dflt)
  | _ => .error .attributeError

/-- `v[k]` for a string key: `KeyError` on a dict without the key,
`TypeError` on any non-dict. -/
def pySubscript (v : JValue) (k : String) : Except PyErr JValue :=
  match v with
  | .obj fs => match pyGet fs k with
    | some x => .ok x
    | none => .error .keyError
  | _ => .error .typeError

/-- `v[0]`: first element of a list (or one-character string), `IndexError`
when empty, `TypeError` for non-subscriptable values. -/
def pyIndex0 : JValue → Except PyErr JValue
  | .arr [] => .error .indexError
  | .arr (x :: _) => .ok x
  | .str s => match s.data with
    | [] => .error .indexError
    | c :: _ => .ok (.str (String.mk [c]))
  | .obj _ => .error .keyError
  | _ => .error .typeError

/-- `len(v)`: `TypeError` for values without a length. -/
def pyLen : JValue → Except PyErr Nat
  | .str s => .ok s.length
  | .arr xs => .ok xs.length
  | .obj fs => .ok fs.length
  | _ => .error .typeError

/-- `x == "lit"` for a string literal: true only for an equal string,
false (never an exception) for every other decoded value. -/
def pyEqStr (v : JValue) (t : String) : Bool :=
  match v with
  | .str s => s == t
  | _ => false

/-- `"k" in v`: key membership for dicts, element equality for lists,
substring test for strings, `TypeError` otherwise. -/
def pyContains (v : JValue) (k : String) : Except PyErr Bool :=
  match v with
  | .obj fs => .ok (fs.any (fun kv => kv.1 == k))
  | .arr xs => .ok (xs.any (fun x => pyEqStr x k))
  | .str s => .ok (s.data.tails.any (fun t => k.data.isPrefixOf t))
  | _ => .error .typeError

/-- `for x in v`: list elements; characters (as one-character strings)
for a string; keys for a dict; `TypeError` otherwise. -/
def pyIter : JValue → Except PyErr (List JValue)
  | .arr xs => .ok xs
  | .str s => .ok (s.data.map (fun c => .str (String.mk [c])))
  | .obj fs => .ok (fs.map (fun kv => .str kv.1))
  | _ => .error .typeError

/-- `"".join(parts)`: concatenates string parts, `TypeError` when any
part is not a string. -/
def pyJoin : List JValue → Except PyErr String
  | [] => .ok ""
  | .str s :: rest => do
    let tail ← pyJoin rest
    pure (s ++ tail)
  | _ :: _ => .error .typeError

/-- An approximation of `str(e)` used where a caught exception's message
is stored: the claims never inspect these strings. -/
def pyErrMsg : PyErr → String
  | .attributeError => "AttributeError"
  | .typeError => "TypeError"
  | .indexError => "IndexError"
  | .keyError => "KeyError"
  | .valueError => "ValueError"

/-- Is this value Python's `None`? -/
def JValue.isNull : JValue → Bool
  | .null => true
  | _ => false

/-! ## Response normalization (`differential.py`) -/

/-- The canonical record produced by
`DifferentialTestSuite._normalize_response_style` (lines 336-372); field
order matches the returned dict literal (`model`, `role`,
`finish_reason`, `input_tokens`, `output_tokens`, `content`). -/
structure CanonicalResponse where
  model : JValue
  role : JValue
  finish_reason : JValue
  input_tokens : JValue
  output_tokens : JValue
  content : JValue

/-- `_normalize_response_style(style, response)` (lines 336-372),
including the exceptions Python raises when a present substructure does
not have the shape the code indexes into. -/
def normalizeResponseStyle (style : String) (response : JValue) : Except PyErr CanonicalResponse := do
  let model ← pyDictGetD response "model" (.str "")
  if style = "openai" then
    let choices := pyOr (← pyDictGetD response "choices" (.arr [])) (.arr [])
    let (content, role, finish_reason) ←
      if pyFalsy choices then
        pure (JValue.str "", JValue.str "", JValue.str "")
      else do
        let choice ← pyIndex0 choices
        let message := pyOr (← pyDictGetD choice "message" .null) (.obj [])
        let content := pyOr (← pyDictGetD message "content" (.str "")) (.str "")
        let role := pyOr (← pyDictGetD message "role" (.str "")) (.str "")
        let finish_reason := pyOr (← pyDictGetD choice "finish_reason" (.str "")) (.str "")
        pure (content, role, finish_reason)
    let usage := pyOr (← pyDictGetD response "usage" .null) (.obj [])
    let input_tokens ← pyDictGetD usage "prompt_tokens" .null
    let output_tokens ← pyDictGetD usage "completion_tokens" .null
    pure ⟨model, role, finish_reason, input_tokens, output_tokens, content⟩
  else
    let blocks := pyOr (← pyDictGetD response "content" (.arr [])) (.arr [])
    let blockList ← pyIter blocks
    let pieces ← blockList.filterMapM (fun b => do
      let btype ← pyDictGetD b "type" .null
      if pyEqStr btype "text" then
        pure (some (← pyDictGetD b "text" (.str "")))
      else
        pure none)
    let content ← pyJoin pieces
    let role := pyOr (← pyDictGetD response "role" (.str "")) (.str "")
    let finish_reason := pyOr (← pyDictGetD response "stop_reason" (.str "")) (.str "")
    let usage := pyOr (← pyDictGetD response "usage" .null) (.obj [])
    let input_tokens ← pyDictGetD usage "input_tokens" .null
    let output_tokens ← pyDictGetD usage "output_tokens" .null
    pure ⟨model, role, finish_reason, input_tokens, output_tokens, .str content⟩

/-- The keys of the canonical record whose value is `None`, in the
record's field order (the `missing = [k for k, v in data.items() if v is
None]` comprehension of `test_three_path_for_provider`). -/
def missingOf (c : CanonicalResponse) : List String :=
  (if c.model.isNull then ["model"] else []) ++
  (if c.role.isNull then ["role"] else []) ++
  (if c.finish_reason.isNull then ["finish_reason"] else []) ++
  (if c.input_tokens.isNull then ["input_tokens"] else []) ++
  (if c.output_tokens.isNull then ["output_tokens"] else []) ++
  (if c.content.isNull then ["content"] else [])

/-- `DifferentialTestSuite._extract_content` (lines 153-177): collect the
text parts of the three dialect shapes that are present, then join. -/
def extractContent (response : JValue) : Except PyErr String := do
  let parts1 ← (do
    if ← pyContains response "choices" then
      let choices ← pyDictGetD response "choices" (.arr [])
      let cs ← pyIter choices
      cs.filterMapM (fun choice => do
        if ← pyContains choice "message" then
          let message ← pySubscript choice "message"
          pure (some (← pyDictGetD message "content" (.str "")))
        else if ← pyContains choice "delta" then
          let delta ← pySubscript choice "delta"
          pure (some (← pyDictGetD delta "content" (.str "")))
        else
          pure none)
    else pure [])
  let parts2 ← (do
    if ← pyContains response "content" then
      let blocks ← pyDictGetD response "content" (.arr [])
      let bs ← pyIter blocks
      bs.filterMapM (fun b => do
        let btype ← pyDictGetD b "type" .null
        if pyEqStr btype "text" then
          pure (some (← pyDictGetD b "text" (.str "")))
        else
          pure none)
    else pure [])
  let parts3 ← (do
    if ← pyContains response "candidates" then
      let cands ← pyDictGetD response "candidates" (.arr [])
      let cs ← pyIter cands
      let nested ← cs.mapM (fun candidate => do
        if ← pyContains candidate "content" then
          let inner ← pySubscript candidate "content"
          let partsVal ← pyDictGetD inner "parts" (.arr [])
          let ps ← pyIter partsVal
          ps.filterMapM (fun part => do
            if ← pyContains part "text" then
              pure (some (← pySubscript part "text"))
            else
              pure none)
        else pure [])
      pure nested.flatten
    else pure [])
  pyJoin (parts1 ++ parts2 ++ parts3)

/-- The record produced by `DifferentialTestSuite._normalize_response`
(lines 320-334).  `content_hash` is the md5 of the same concatenated
text; it is modelled by the text itself (it is stored as evidence and
never compared by any code the claims touch). -/
structure NormalizedGeneric where
  content : String
  content_hash : String
  model : JValue
  usage : Option JValue

/-- `_normalize_response(response)` (lines 320-334). -/
def normalizeResponse (response : JValue) : Except PyErr NormalizedGeneric := do
  let content ← extractContent response
  let contentHash ← extractContent response
  let model ← pyDictGetD response "model" (.str "")
  let usage ←
    (do
      if ← pyContains response "usage" then
        pure (some (← pyDictGetD response "usage" (.obj [])))
      else
        let message ← pyDictGetD response "message" (.obj [])
        if ← pyContains message "usage" then
          pure (some (← pyDictGetD message "usage" (.obj [])))
        else
          pure none)
  pure ⟨content, contentHash, model, usage⟩

/-! ## Field validation (`backend_validation.py`) -/

/-- `FieldValidationIssue` dataclass (`backend_validation.py`, lines
66-73). -/
structure FieldValidationIssue where
  field_path : String
  issue_type : String
  expected : String
  actual : Option String := none
  severity : String := "error"
deriving Repr, DecidableEq

/-- `type(value).__name__` for a decoded JSON value (a number with
denominator 1 is modelled as a Python `int`, any other as a `float`). -/
def pyTypeName : JValue → String
  | .null => "NoneType"
  | .bool _ => "bool"
  | .num q => if q.den = 1 then "int" else "float"
  | .str _ => "str"
  | .arr _ => "list"
  | .obj _ => "dict"

/-- The `type_checks` table of `_validate_field_type` (lines 180-188),
under Python `isinstance` semantics (`bool` is a subclass of `int`,
so `True` passes the `int` and `float` checks); `none` when the
expected type is not a key of the table. -/
def typeCheck (expected : String) (v : JValue) : Option Bool :=
  match expected with
  | "str" => some (match v with | .str _ => true | _ => false)
  | "int" => some (match v with | .num q => q.den == 1 | .bool _ => true | _ => false)
  | "float" => some (match v with | .num _ => true | .bool _ => true | _ => false)
  | "bool" => some (match v with | .bool _ => true | _ => false)
  | "list" => some (match v with | .arr _ => true | _ => false)
  | "dict" => some (match v with | .obj _ => true | _ => false)
  | "str|list" => some (match v with | .str _ => true | .arr _ => true | _ => false)
  | _ => none

/-- `BackendValidationTestSuite._validate_field_type(value, expected_type,
field_path)` (lines 161-212): a `None` value short-circuits with a single
`invalid_value` error; an unknown expected type returns no issues; then a
`wrong_type` error on a failed check and an additional `empty` warning
for falsy values of the container types. -/
def validateFieldType (value : JValue) (expected_type field_path : String) :
    List FieldValidationIssue :=
  match value with
  | .null => [⟨field_path, "invalid_value", "non-null " ++ expected_type, some "null", "error"⟩]
  | v =>
    match typeCheck expected_type v with
    | none => []
    | some ok =>
      (if ok then []
       else [⟨field_path, "wrong_type", expected_type, some (pyTypeName v), "error"⟩]) ++
      (if (expected_type = "str" ∨ expected_type = "list" ∨ expected_type = "dict") ∧ pyFalsy v then
        [⟨field_path, "empty", "non-empty " ++ expected_type,
          some ("empty " ++ expected_type), "warning"⟩]
       else [])

/-! ## Configuration loading (`src/tests/providers/config.py`) -/

/-- `APIStyle` enumeration (`config.py`, lines 13-17). -/
inductive APIStyle where
  | openai
  | anthropic
  | google
deriving Repr, DecidableEq

/-- `AuthType` enumeration (`config.py`, lines 20-23). -/
inductive AuthType where
  | api_key
  | oauth
deriving Repr, DecidableEq

/-- `APIStyle(value)`: enum lookup by value raises `ValueError` for any
value that is not one of the three member strings. -/
def apiStyleOfJ : JValue → Except PyErr APIStyle
  | .str s =>
    if s = "openai" then .ok .openai
    else if s = "anthropic" then .ok .anthropic
    else if s = "google" then .ok .google
    else .error .valueError
  | _ => .error .valueError

/-- `AuthType(value)`. -/
def authTypeOfJ : JValue → Except PyErr AuthType
  | .str s =>
    if s = "api_key" then .ok .api_key
    else if s = "oauth" then .ok .oauth
    else .error .valueError
  | _ => .error .valueError

/-- `OAuthDetail` dataclass (`config.py`, lines 26-31); field values keep
whatever decoded value was supplied (dataclasses do not type-check). -/
structure OAuthDetail where
  client_id : JValue := .str ""
  client_secret : JValue := .str ""
  refresh_token : JValue := .str ""

/-- `OAuthDetail(**d)`: `TypeError` when `d` is not a mapping or has an
unexpected key; missing keys take the dataclass defaults. -/
def oauthDetailOfJ : JValue → Except PyErr OAuthDetail
  | .obj fs =>
    if fs.all (fun kv =>
        kv.1 == "client_id" || kv.1 == "client_secret" || kv.1 == "refresh_token") then
      .ok ⟨pyGetD fs "client_id" (.str ""), pyGetD fs "client_secret" (.str ""),
        pyGetD fs "refresh_token" (.str "")⟩
    else .error .typeError
  | _ => .error .typeError

/-- `Provider` dataclass (`config.py`, lines 34-46); loosely-typed fields
keep the decoded value. -/
structure Provider where
  uuid : JValue := .str ""
  name : JValue := .str ""
  api_base : JValue := .str ""
  api_style : APIStyle := .openai
  token : JValue := .str ""
  auth_type : AuthType := .api_key
  oauth_detail : Option OAuthDetail := none
  proxy_url : JValue := .str ""
  timeout : JValue := .num 60
  models : JValue := .arr []

/-- `Provider.from_dict(data)` (`config.py`, lines 48-76): empty/missing
style and auth strings default, then the enum constructors run (raising
`ValueError` on unrecognised values), then `oauth_detail` is built when
truthy. -/
def providerFromDict (data : List (String × JValue)) : Except PyErr Provider := do
  let api_style_str := pyGetD data "api_style" (.str "openai")
  let api_style_str := if pyFalsy api_style_str then JValue.str "openai" else api_style_str
  let api_style ← apiStyleOfJ api_style_str
  let auth_type_str := pyGetD data "auth_type" (.str "api_key")
  let auth_type_str := if pyFalsy auth_type_str then JValue.str "api_key" else auth_type_str
  let auth_type ← authTypeOfJ auth_type_str
  let oauth_detail ←
    (if pyFalsy (pyGetD data "oauth_detail" .null) then
      pure none
    else do
      pure (some (← oauthDetailOfJ (pyGetD data "oauth_detail" .null))))
  pure
    { uuid := pyGetD data "uuid" (.str "")
      name := pyGetD data "name" (.str "")
      api_base := pyGetD data "api_base" (.str "")
      api_style := api_style
      token := pyGetD data "token" (.str "")
      auth_type := auth_type
      oauth_detail := oauth_detail
      proxy_url := pyGetD data "proxy_url" (.str "")
      timeout := pyGetD data "timeout" (.num 60)
      models := pyGetD data "models" (.arr []) }

/-- Dict assignment `d[k] = v`: replaces the value in place when the key
exists, appends otherwise. -/
def setKey (fs : List (String × JValue)) (k : String) (v : JValue) : List (String × JValue) :=
  if fs.any (fun kv => kv.1 == k) then
    fs.map (fun kv => if kv.1 == k then (kv.1, v) else kv)
  else fs ++ [(k, v)]

/-- `provider_data.get("enabled") is False`: Python identity test
against the `False` singleton (`0` or `""` do not match). -/
def isDisabled (v : Option JValue) : Bool :=
  match v with
  | some (.bool false) => true
  | _ => false

/-- One iteration of the provider loop of `ConfigLoader._load_json`
(`config.py`, lines 188-204): `dict(p)` (anything but a dict raises and
is caught by the per-provider `except`, which skips the entry), the
`enabled is False` skip, the `api_style` default injection, then
`Provider.from_dict`; any exception is caught and the entry skipped. -/
def loadProviderItem : JValue → Option Provider
  | .obj fs =>
    if isDisabled (pyGet fs "enabled") then none
    else
      let fs' :=
        if ((pyGet fs "api_style").isNone) || pyFalsy (pyGetD fs "api_style" .null) then
          setKey fs "api_style" (.str "openai")
        else fs
      match providerFromDict fs' with
      | .ok p => some p
      | .error _ => none
  | _ => none

/-- The providers constructed from one entry of `provider_sources`. -/
def loadSource (xs : List JValue) : List Provider :=
  xs.filterMap loadProviderItem

/-- The provider part of `ConfigLoader._load_json` (`config.py`, lines
180-204): `provider_sources` lists `providers_v2` first when present,
then `providers`; each source is iterated in order (a non-iterable
source raises outside the per-provider `except` and aborts loading). -/
def loadProvidersJson (data : List (String × JValue)) : Except PyErr (List Provider) := do
  let sources :=
    (match pyGet data "providers_v2" with
     | some v => [v]
     | none => []) ++
    (match pyGet data "providers" with
     | some v => [v]
     | none => [])
  let lists ← sources.mapM pyIter
  pure (lists.map loadSource).flatten

/-! ## The differential verdict engine (`differential.py`)

`differential.py` imports its `Rule`/`TestConfig` dataclasses from a
sibling `config` module; the dataclass fields it uses (`active`,
`request_model`, `scenario`, `services`, `api_style`) coincide with the
dataclasses of `src/tests/providers/config.py` modelled above, which we
reuse.  The proxy client (`tests/client.py`) performs HTTP calls and
returns a `TestResult`; each call is modelled as an oracle function
supplied to the test, mapping the call's arguments to its result. -/

/-- `Rule` dataclass fields used by the differential suite. -/
structure Rule where
  uuid : String := ""
  scenario : String := ""
  request_model : String := ""
  response_model : String := ""
  services : List JValue := []
  lb_tactic : String := "round_robin"
  active : Bool := true
  smart_enabled : Bool := false

/-- The `TestResult` envelope of `tests/client.py` (fields consumed by
the differential suite). -/
structure TestResult where
  success : Bool
  error : Option String := none
  raw_response : Option JValue := none

/-- `DifferentialTestSuite._get_rule_by_request_model` (lines 87-91):
first active rule with the exact request model. -/
def getRuleByRequestModel (rules : List Rule) (request_model : String) : Option Rule :=
  rules.find? (fun r => r.active && r.request_model == request_model)

/-- `DifferentialResult` (lines 21-43).  Wall-clock fields
(`duration_ms`, `timestamp`) and the raw evidence payloads
(`baseline_response`, `comparison_response`) are omitted: no claim
mentions them and they carry no verdict information. -/
structure DifferentialResult where
  test_name : String
  comparison_type : String
  passed : Bool
  verdict : String
  message : String
  differences : List JValue := []
  similarity_score : ℚ := 0
  baseline_tokens : Nat := 0
  comparison_tokens : Nat := 0
  token_difference : Nat := 0
  detail : String := ""
  paths : List JValue := []
  error : Option String := none

/-- `_calculate_similarity` as invoked on arbitrary extracted content
values: the falsiness tests accept any value, `SequenceMatcher` then
needs two strings (anything else raises when `ratio()` walks the
sequences). -/
def calculateSimilarityPy (v1 v2 : JValue) : Except PyErr ℚ :=
  if pyFalsy v1 && pyFalsy v2 then .ok 1
  else if pyFalsy v1 || pyFalsy v2 then .ok 0
  else match v1, v2 with
    | .str a, .str b => .ok (calculateSimilarity a b)
    | _, _ => .error .typeError

/-- `_count_tokens_estimate` on an arbitrary content value: `len` works
on strings, lists and dicts and raises `TypeError` otherwise. -/
def countTokensEstimatePy (v : JValue) : Except PyErr Nat := do
  pure (max 1 ((← pyLen v) / 4))

/-- `p["result"].error or "request failed"` (line 249). -/
def pathErrorText (e : Option String) : String :=
  match e with
  | some s => if s.isEmpty then "request failed" else s
  | none => "request failed"

/-- A dispatched path of the three-path test: the dict built by
`_run_path` (lines 93-124), with the proxy call's result. -/
structure PathInfo where
  name : String
  style : String
  scenario : String
  request_model : String
  endpoint : String
  result : TestResult

/-- `_run_path` (lines 93-124): endpoint selection by style and the
proxy call, abstracted by the `client` oracle (style, scenario,
request model, optional roundtrip header). -/
def runPath (client : String → String → String → Option String → TestResult)
    (name style scenario request_model : String) (roundtrip : Option String) : PathInfo :=
  { name := name
    style := style
    scenario := scenario
    request_model := request_model
    endpoint := "/tingly/" ++ scenario ++ "/" ++
      (if style = "openai" then "chat/completions" else "messages")
    result := client style scenario request_model roundtrip }

/-- `result.raw_response or \x7b\x7d`. -/
def rawOfOpt (raw : Option JValue) : JValue :=
  match raw with
  | some v => pyOr v (.obj [])
  | none => .obj []

/-- The per-path dict recorded in the failure branch (lines 237-248). -/
def pathFailEntry (p : PathInfo) : JValue :=
  .obj [("name", .str p.name), ("style", .str p.style), ("scenario", .str p.scenario),
    ("request_model", .str p.request_model), ("endpoint", .str p.endpoint),
    ("success", .bool p.result.success),
    ("error", match p.result.error with | some e => .str e | none => .null)]

/-- The per-path dict recorded in the success branch (lines 308-317). -/
def pathOkEntry (p : PathInfo) : JValue :=
  .obj [("name", .str p.name), ("style", .str p.style), ("scenario", .str p.scenario),
    ("request_model", .str p.request_model), ("endpoint", .str p.endpoint)]

/-- The all-paths-succeeded branch of `test_three_path_for_provider`
(lines 252-317): normalize the three raw responses, compare fields,
score the two similarities and render the verdict. -/
def threePathOk (base_model : String) (direct_path xform_path roundtrip_path : PathInfo) :
    Except PyErr DifferentialResult := do
  let ndirect ← normalizeResponseStyle direct_path.style
    (rawOfOpt direct_path.result.raw_response)
  let nxform ← normalizeResponseStyle xform_path.style
    (rawOfOpt xform_path.result.raw_response)
  let nroundtrip ← normalizeResponseStyle roundtrip_path.style
    (rawOfOpt roundtrip_path.result.raw_response)
  let missingEntries :=
    (if (missingOf ndirect).isEmpty then []
     else [("direct", JValue.arr ((missingOf ndirect).map JValue.str))]) ++
    (if (missingOf nxform).isEmpty then []
     else [("xform", JValue.arr ((missingOf nxform).map JValue.str))]) ++
    (if (missingOf nroundtrip).isEmpty then []
     else [("roundtrip", JValue.arr ((missingOf nroundtrip).map JValue.str))])
  let differences : List JValue :=
    if missingEntries.isEmpty then []
    else [.obj [("type", .str "missing_fields"), ("details", .obj missingEntries)]]
  let simXform ← calculateSimilarityPy ndirect.content nxform.content
  let simRoundtrip ← calculateSimilarityPy ndirect.content nroundtrip.content
  let avg_similarity := (simXform + simRoundtrip) / 2
  let passed := differences.isEmpty
  let verdict := if passed then "pass" else "fail"
  let verdict := if passed ∧ avg_similarity < 7/10 then "inconclusive" else verdict
  let baseline_tokens ← countTokensEstimatePy ndirect.content
  let comparison_tokens ← countTokensEstimatePy nxform.content
  let roundtrip_tokens ← countTokensEstimatePy nroundtrip.content
  pure
    { test_name := base_model ++ "_three_path"
      comparison_type := "three_path"
      passed := passed && (verdict == "pass")
      verdict := verdict
      message := "Three-path: avg similarity (value elided)"
      differences := differences
      similarity_score := avg_similarity
      baseline_tokens := baseline_tokens
      comparison_tokens := comparison_tokens
      token_difference := ((baseline_tokens : Int) - (roundtrip_tokens : Int)).natAbs
      detail := String.intercalate " | "
        ["direct=" ++ direct_path.endpoint ++ " model=" ++ direct_path.request_model,
         "xform=" ++ xform_path.endpoint ++ " model=" ++ xform_path.request_model,
         "roundtrip=" ++ roundtrip_path.endpoint ++ " model=" ++
           roundtrip_path.request_model]
      paths := List.map pathOkEntry [direct_path, xform_path, roundtrip_path] }

/-- `test_three_path_for_provider(provider, base_model)` (lines
191-318).  The method has no `try`/`except`, so an exception from
normalization or scoring propagates to the caller: the result is
`Except`.  Messages that interpolate floats keep their constant prefix
(no claim reads them). -/
def testThreePathForProvider (rules : List Rule)
    (client : String → String → String → Option String → TestResult)
    (provider_api_style : APIStyle) (base_model : String) :
    Except PyErr DifferentialResult := do
  let direct_rule := getRuleByRequestModel rules base_model
  let xform_rule := getRuleByRequestModel rules (base_model ++ "-xform")
  let roundtrip_rule := getRuleByRequestModel rules (base_model ++ "-rt")
  match direct_rule, xform_rule, roundtrip_rule with
  | some direct_rule, some xform_rule, some roundtrip_rule =>
    let (direct_style, xform_style, roundtrip_style, roundtrip_header) :=
      if provider_api_style = .anthropic then
        ("anthropic", "openai", "anthropic", "openai")
      else
        ("openai", "anthropic", "openai", "anthropic")
    let direct_path := runPath client "direct" direct_style direct_rule.scenario
      direct_rule.request_model none
    let xform_path := runPath client "xform" xform_style xform_rule.scenario
      xform_rule.request_model none
    let roundtrip_path := runPath client "roundtrip" roundtrip_style roundtrip_rule.scenario
      roundtrip_rule.request_model (some roundtrip_header)
    let paths := [direct_path, xform_path, roundtrip_path]
    let failures := paths.filter (fun p => !p.result.success)
    if !failures.isEmpty then
      pure
        { test_name := base_model ++ "_three_path"
          comparison_type := "three_path"
          passed := false
          verdict := "fail"
          message := "One or more paths failed"
          detail := String.intercalate " | "
            (paths.map (fun p => p.name ++ "=" ++ p.endpoint))
          paths := paths.map pathFailEntry
          error := some (String.intercalate "; "
            (failures.map (fun p => pathErrorText p.result.error))) }
    else threePathOk base_model direct_path xform_path roundtrip_path
  | _, _, _ =>
    pure
      { test_name := base_model ++ "_three_path"
        comparison_type := "three_path"
        passed := false
        verdict := "inconclusive"
        message := "Missing differential rules for provider"
        error := some "Missing one or more differential rules (direct/xform/roundtrip)" }

/-- `rule.request_model if rule and rule.request_model else model`. -/
def ruleModelOr (rule : Option Rule) (model : Option String) : Option String :=
  match rule with
  | some r => if !r.request_model.isEmpty then some r.request_model else model
  | none => model

/-- `rule.scenario if rule else dflt`. -/
def ruleScenarioOr (rule : Option Rule) (dflt : String) : String :=
  match rule with
  | some r => r.scenario
  | none => dflt

/-- The `try`/`except Exception` wrapper shared by the four top-level
test methods: a raised exception is converted to the method's
inconclusive fallback result. -/
def exceptFallback (body : Except PyErr DifferentialResult)
    (fb : PyErr → DifferentialResult) : DifferentialResult :=
  match body with
  | .ok r => r
  | .error e => fb e

/-- Shared tail of the two roundtrip-pair tests (lines 430-471 and
541-582): normalize both responses, score, and render the verdict
(`pass` at similarity ≥ 0.7, else `inconclusive`). -/
def roundtripCompare (test_name message_ok : String) (baseline comparison : JValue) :
    Except PyErr DifferentialResult := do
  let bn ← normalizeResponse baseline
  let cn ← normalizeResponse comparison
  let content_similarity := calculateSimilarity bn.content cn.content
  let baseline_tokens := countTokensEstimate bn.content
  let comparison_tokens := countTokensEstimate cn.content
  let differences : List JValue :=
    if content_similarity < 7/10 then
      [.obj [("type", .str "content_similarity"), ("value", .num content_similarity),
        ("threshold", .num (7/10)),
        ("message", .str "Content similarity (value elided)")]]
    else []
  let passed := decide (7/10 ≤ content_similarity)
  let verdict := if passed then "pass" else "inconclusive"
  pure
    { test_name := test_name
      comparison_type := "roundtrip"
      passed := passed
      verdict := verdict
      message := message_ok
      differences := differences
      similarity_score := content_similarity
      baseline_tokens := baseline_tokens
      comparison_tokens := comparison_tokens
      token_difference := ((baseline_tokens : Int) - (comparison_tokens : Int)).natAbs }

/-- `test_roundtrip_openai_anthropic_openai(model, prompt)` (lines
374-483).  The two scenario-rule lookups go through the sibling config
module (absent from `src/`), so the looked-up rules are inputs; the two
`chat_completions_openai` calls are the `client` oracle (model,
scenario).  The `try`/`except` catches every exception into an
`inconclusive` result. -/
def testRoundtripOAO (openai_rule anthropic_rule : Option Rule) (model : Option String)
    (client : String → String → TestResult) : DifferentialResult :=
  let openai_model := ruleModelOr openai_rule model
  let anthropic_model := ruleModelOr anthropic_rule model
  let direct_result := client (openai_model.getD "") (ruleScenarioOr openai_rule "openai")
  let transformed_result :=
    client (anthropic_model.getD "") (ruleScenarioOr anthropic_rule "anthropic")
  let responses :=
    (if direct_result.success then [rawOfOpt direct_result.raw_response] else []) ++
    (if transformed_result.success then [rawOfOpt transformed_result.raw_response] else [])
  let body : Except PyErr DifferentialResult :=
    match responses with
    | baseline :: comparison :: _ =>
      roundtripCompare "roundtrip_o_a_o" "Roundtrip comparison: content similarity (value elided)"
        baseline comparison
    | _ =>
      .ok
        { test_name := "roundtrip_o_a_o"
          comparison_type := "roundtrip"
          passed := false
          verdict := "inconclusive"
          message := "Insufficient responses for comparison"
          error := some "Need at least 2 responses for comparison" }
  exceptFallback body fun e =>
    { test_name := "roundtrip_o_a_o"
      comparison_type := "roundtrip"
      passed := false
      verdict := "inconclusive"
      message := "Exception during roundtrip test"
      error := some (pyErrMsg e) }

/-- `test_anthropic_roundtrip(model, prompt)` (lines 485-594): as above
with the `messages_anthropic` client, anthropic scenario first. -/
def testAnthropicRoundtrip (openai_rule anthropic_rule : Option Rule) (model : Option String)
    (client : String → String → TestResult) : DifferentialResult :=
  let openai_model := ruleModelOr openai_rule model
  let anthropic_model := ruleModelOr anthropic_rule model
  let direct_result := client (anthropic_model.getD "") (ruleScenarioOr anthropic_rule "anthropic")
  let transformed_result := client (openai_model.getD "") (ruleScenarioOr openai_rule "openai")
  let responses :=
    (if direct_result.success then [rawOfOpt direct_result.raw_response] else []) ++
    (if transformed_result.success then [rawOfOpt transformed_result.raw_response] else [])
  let body : Except PyErr DifferentialResult :=
    match responses with
    | baseline :: comparison :: _ =>
      roundtripCompare "anthropic_roundtrip" "Anthropic roundtrip: content similarity (value elided)"
        baseline comparison
    | _ =>
      .ok
        { test_name := "anthropic_roundtrip"
          comparison_type := "roundtrip"
          passed := false
          verdict := "inconclusive"
          message := "Insufficient responses for comparison"
          error := some "Need at least 2 responses for comparison" }
  exceptFallback body fun e =>
    { test_name := "anthropic_roundtrip"
      comparison_type := "roundtrip"
      passed := false
      verdict := "inconclusive"
      message := "Exception during Anthropic roundtrip test"
      error := some (pyErrMsg e) }

/-- One provider entry of `test_multi_provider_consistency`: the code
accepts 3-tuples `(api_style, scenario, model)` and 2-tuples
`(api_style, model)` (then `scenario = api_style`). -/
inductive MPItem where
  | three (api_style scenario model : String)
  | two (api_style model : String)

/-- Tuple destructuring of lines 619-624. -/
def mpDest : MPItem → String × String × String
  | .three s c m => (s, c, m)
  | .two s m => (s, s, m)

/-- A pairwise-similarity entry (lines 677-680). -/
structure SimPair where
  pair : String
  similarity : ℚ

/-- Stable insertion of a pair into a list sorted by ascending
similarity (a later element goes after earlier equal ones). -/
def insertBySim (x : SimPair) : List SimPair → List SimPair
  | [] => [x]
  | y :: ys => if y.similarity ≤ x.similarity then y :: insertBySim x ys else x :: y :: ys

/-- `similarities.sort(key=lambda x: x["similarity"])` (line 683):
Python's sort is stable, and all stable sorts agree, so it is modelled
by a stable insertion sort. -/
def sortBySim (l : List SimPair) : List SimPair :=
  l.foldl (fun acc x => insertBySim x acc) []

/-- The `i < j` double loop of lines 670-680, in iteration order. -/
def pairsUpper : List (String × String) → List SimPair
  | [] => []
  | x :: xs =>
    (xs.map fun y => ⟨x.1 ++ "_" ++ y.1, calculateSimilarity x.2 y.2⟩) ++ pairsUpper xs

/-- The judgement stage of `test_multi_provider_consistency` (lines
682-702), with every intermediate value exposed. -/
structure MPJudge where
  minority : SimPair
  avg : ℚ
  minority_guilty : Bool
  differences : List JValue
  passed : Bool
  verdict : String

/-- Lines 682-702: sort ascending, the minority is the first pair (or
the `none`/1.0 placeholder when there are no pairs); the mean is over
all pairs (1.0 when none); the minority is guilty when its similarity is
below `mean - 0.2`; `pass` iff mean ≥ 0.5 and no guilty minority, else
`fail` when a difference was recorded, else `inconclusive`. -/
def multiProviderJudge (similarities : List SimPair) : MPJudge :=
  let minority : SimPair :=
    match sortBySim similarities with
    | [] => ⟨"none", 1⟩
    | m :: _ => m
  let avg : ℚ :=
    if similarities.isEmpty then 1
    else (similarities.map SimPair.similarity).sum / (similarities.length : ℚ)
  let minority_guilty := decide (minority.similarity < avg - 1/5)
  let differences : List JValue :=
    if minority_guilty then
      [.obj [("type", .str "minority_pair"), ("pair", .str minority.pair),
        ("similarity", .num minority.similarity),
        ("message", .str "Low similarity (details elided)")]]
    else []
  let passed := decide ((1:ℚ)/2 ≤ avg) && !minority_guilty
  let verdict := if passed then "pass" else if !differences.isEmpty then "fail" else "inconclusive"
  ⟨minority, avg, minority_guilty, differences, passed, verdict⟩

/-- `test_multi_provider_consistency(prompt, providers)` (lines
596-727).  Each provider entry triggers one proxy call (the `client`
oracle: api style, scenario, model); only successful calls contribute a
response; fewer than two responses is `inconclusive`; otherwise the
responses are normalized and judged. -/
def testMultiProvider (items : List MPItem) (client : String → String → String → TestResult) :
    DifferentialResult :=
  let calls := items.map (fun it =>
    let (s, c, m) := mpDest it
    (s, m, client s c m))
  let responses := calls.filterMap (fun e =>
    if e.2.2.success then some (e.1, rawOfOpt e.2.2.raw_response) else none)
  let body : Except PyErr DifferentialResult :=
    if responses.length < 2 then
      .ok
        { test_name := "multi_provider_consistency"
          comparison_type := "cross_provider"
          passed := false
          verdict := "inconclusive"
          message := "Insufficient responses for multi-provider comparison"
          error := some "Need at least 2 provider responses" }
    else do
      let normalized ← responses.mapM (fun e => do
        pure (e.1, (← normalizeResponse e.2)))
      let sims := pairsUpper (normalized.map (fun e => (e.1, e.2.content)))
      let j := multiProviderJudge sims
      pure
        { test_name := "multi_provider_consistency"
          comparison_type := "cross_provider"
          passed := j.passed
          verdict := j.verdict
          message := "Multi-provider consistency: average similarity (value elided)"
          differences := j.differences
          similarity_score := j.avg }
  exceptFallback body fun e =>
    { test_name := "multi_provider_consistency"
      comparison_type := "cross_provider"
      passed := false
      verdict := "inconclusive"
      message := "Exception during multi-provider test"
      error := some (pyErrMsg e) }

/-- `test_response_structure_equivalence(model, prompt)` (lines
729-826): one OpenAI-style call, then presence checks of the expected
top-level, choice and usage fields on the raw body. -/
def testResponseStructure (rule : Option Rule) (model : Option String)
    (client : String → String → TestResult) : DifferentialResult :=
  let scenario := ruleScenarioOr rule "openai"
  let request_model := ruleModelOr rule model
  let result := client (request_model.getD "") scenario
  let body : Except PyErr DifferentialResult :=
    if !result.success then
      .ok
        { test_name := "response_structure_equivalence"
          comparison_type := "structure"
          passed := false
          verdict := "inconclusive"
          message := "Failed to get response for structure check"
          error := result.error }
    else do
      let response := rawOfOpt result.raw_response
      let expected_fields := ["id", "object", "created", "model", "choices", "usage"]
      let missing_fields ← expected_fields.filterM (fun f => do
        pure (!(← pyContains response f)))
      let d1 : List JValue :=
        if !missing_fields.isEmpty then
          [.obj [("type", .str "missing_fields"),
            ("fields", .arr (missing_fields.map JValue.str)),
            ("message", .str "Missing expected fields (list elided)")]]
        else []
      let d2 ← (do
        if ← pyContains response "choices" then
          let choicesVal ← pySubscript response "choices"
          if (← pyLen choicesVal) = 0 then
            pure [JValue.obj [("type", .str "empty_choices"),
              ("message", .str "No choices in response")]]
          else do
            let choice ← pyIndex0 choicesVal
            let expected_choice_fields := ["index", "message", "finish_reason"]
            let missing_choice ← expected_choice_fields.filterM (fun f => do
              pure (!(← pyContains choice f)))
            if !missing_choice.isEmpty then
              pure [JValue.obj [("type", .str "choice_missing_fields"),
                ("fields", .arr (missing_choice.map JValue.str)),
                ("message", .str "Missing choice fields (list elided)")]]
            else pure []
        else pure [])
      let d3 ← (do
        if ← pyContains response "usage" then
          let usageVal ← pySubscript response "usage"
          let expected_usage := ["prompt_tokens", "completion_tokens", "total_tokens"]
          let missing_usage ← expected_usage.filterM (fun f => do
            pure (!(← pyContains usageVal f)))
          if !missing_usage.isEmpty then
            pure [JValue.obj [("type", .str "usage_missing_fields"),
              ("fields", .arr (missing_usage.map JValue.str)),
              ("message", .str "Missing usage fields (list elided)")]]
          else pure []
        else pure [])
      let differences := d1 ++ d2 ++ d3
      let passed := differences.isEmpty
      pure
        { test_name := "response_structure_equivalence"
          comparison_type := "structure"
          passed := passed
          verdict := if passed then "pass" else "fail"
          message := "Structure check (details elided)"
          differences := differences
          similarity_score := if passed then 1 else 0 }
  exceptFallback body fun e =>
    { test_name := "response_structure_equivalence"
      comparison_type := "structure"
      passed := false
      verdict := "inconclusive"
      message := "Exception during structure check"
      error := some (pyErrMsg e) }

/-! ### Concrete fixtures used by witnesses and counterexamples -/

/-- A well-formed OpenAI-style response body with content `"hi"`. -/
def okBody : JValue :=
  .obj [("id", .str "x"), ("object", .str "chat.completion"), ("created", .num 1),
    ("model", .str "m"),
    ("choices", .arr [.obj [("index", .num 0),
      ("message", .obj [("role", .str "assistant"), ("content", .str "hi")]),
      ("finish_reason", .str "stop")]]),
    ("usage", .obj [("prompt_tokens", .num 1), ("completion_tokens", .num 1),
      ("total_tokens", .num 2)])]

/-- A roundtrip client whose `openai`-scenario call fails and whose
other calls succeed with `okBody`. -/
def failingOpenaiClient : String → String → TestResult := fun _ scenario =>
  if scenario = "openai" then { success := false, error := some "HTTP 500" }
  else { success := true, raw_response := some okBody }

/-- The three differential rules for base model `qwen-test`. -/
def rulesQwen : List Rule :=
  [{ scenario := "s1", request_model := "qwen-test" },
   { scenario := "s2", request_model := "qwen-test-xform" },
   { scenario := "s3", request_model := "qwen-test-rt" }]

/-- A three-path client whose direct call (model `qwen-test`) fails. -/
def failingDirectClient : String → String → String → Option String → TestResult :=
  fun _ _ request_model _ =>
    if request_model = "qwen-test" then { success := false, error := some "boom" }
    else { success := true, raw_response := some okBody }

/-- The pairwise similarities 0.95, 0.93 and 0.40 of the spec's
multi-provider example. -/
def simsExample : List SimPair :=
  [⟨"a_b", 19/20⟩, ⟨"a_c", 93/100⟩, ⟨"b_c", 2/5⟩]

/-! # Theorems -/

/-! ## The best block stays inside its window -/

theorem innerLoop_in (old : Nat → Nat) (i alo ahi blo bhi : Nat)
    (hi1 : alo ≤ i) (hi2 : i < ahi)
    (hold : ∀ j, old j ≤ i - alo ∧ old j ≤ j + 1 - blo) :
    ∀ (js : List Nat) (acc : Nat → Nat) (best : Best),
    (∀ j ∈ js, blo ≤ j ∧ j < bhi) →
    (∀ j, acc j ≤ i + 1 - alo ∧ acc j ≤ j + 1 - blo) →
    BestIn alo ahi blo bhi best →
    (∀ j, (innerLoop old i js acc best).1 j ≤ i + 1 - alo ∧
      (innerLoop old i js acc best).1 j ≤ j + 1 - blo) ∧
    BestIn alo ahi blo bhi (innerLoop old i js acc best).2 := by
  intro js
  induction js with
  | nil => intro acc best _ hacc hbest; exact ⟨hacc, hbest⟩
  | cons j js ih =>
    intro acc best hjs hacc hbest
    have hj : blo ≤ j ∧ j < bhi := hjs j (List.mem_cons_self j js)
    have hk1 : (if j = 0 then 0 else old (j - 1)) + 1 ≤ i + 1 - alo := by
      by_cases h0 : j = 0
      · simp [h0]; omega
      · simp only [h0, if_false]
        have := (hold (j - 1)).1
        omega
    have hk2 : (if j = 0 then 0 else old (j - 1)) + 1 ≤ j + 1 - blo := by
      by_cases h0 : j = 0
      · subst h0; simp; omega
      · simp only [h0, if_false]
        have := (hold (j - 1)).2
        omega
    simp only [innerLoop]
    apply ih
    · exact fun j' hj' => hjs j' (List.mem_cons_of_mem _ hj')
    · intro j'
      by_cases he : j' = j
      · simp only [he, if_true, if_pos]
        exact ⟨hk1, hk2⟩
      · simp only [he, if_false]
        exact hacc j'
    · by_cases hu : best.bestsize < (if j = 0 then 0 else old (j - 1)) + 1
      · rw [if_pos hu]
        obtain ⟨h1, h2, h3, h4⟩ := hbest
        refine ⟨?_, ?_, ?_, ?_⟩ <;> dsimp only <;> omega
      · rw [if_neg hu]
        exact hbest

theorem scanLoop_in (a b : List Char) (alo ahi blo bhi : Nat) :
    ∀ (m i0 : Nat), i0 + m = ahi → alo ≤ i0 →
    ∀ (j2len : Nat → Nat) (best : Best),
    (∀ j, j2len j ≤ i0 - alo ∧ j2len j ≤ j + 1 - blo) →
    BestIn alo ahi blo bhi best →
    BestIn alo ahi blo bhi (scanLoop a b blo bhi (List.range' i0 m) j2len best) := by
  intro m
  induction m with
  | zero =>
    intro i0 _ _ j2len best _ hbest
    rw [show List.range' i0 0 = [] from rfl]
    simpa only [scanLoop] using hbest
  | succ m ih =>
    intro i0 hsum hle j2len best hj hbest
    rw [List.range'_succ]
    simp only [scanLoop]
    have hjs : ∀ j ∈ ((b2jPos b (a.getD i0 cdef)).takeWhile
        (fun j => decide (j < bhi))).filter (fun j => decide (blo ≤ j)),
        blo ≤ j ∧ j < bhi := by
      intro j hjmem
      have h1 := List.mem_filter.mp hjmem
      have h2 := List.mem_takeWhile_imp h1.1
      exact ⟨of_decide_eq_true h1.2, of_decide_eq_true h2⟩
    have hstep := innerLoop_in j2len i0 alo ahi blo bhi hle (by omega) hj
      (((b2jPos b (a.getD i0 cdef)).takeWhile (fun j => decide (j < bhi))).filter
        (fun j => decide (blo ≤ j)))
      (fun _ => 0) best hjs
      (fun j => ⟨Nat.zero_le _, Nat.zero_le _⟩) hbest
    exact ih (i0 + 1) (by omega) (by omega) _ _
      (fun j => by have := hstep.1 j; omega) hstep.2

theorem extendBack_in (a b : List Char) (alo blo ahi bhi : Nat) :
    ∀ besti bestj bestsize, BestIn alo ahi blo bhi ⟨besti, bestj, bestsize⟩ →
    BestIn alo ahi blo bhi (extendBack a b alo blo besti bestj bestsize) := by
  intro besti
  induction besti with
  | zero => intro bestj bestsize h; simpa only [extendBack] using h
  | succ besti ih =>
    intro bestj bestsize h
    obtain ⟨h1, h2, h3, h4⟩ := h
    dsimp only at h1 h2 h3 h4
    simp only [extendBack]
    by_cases hg : alo < besti + 1 ∧ blo < bestj ∧
        a.getD besti cdef = b.getD (bestj - 1) cdef
    · rw [if_pos hg]
      obtain ⟨hg1, hg2, _⟩ := hg
      exact ih (bestj - 1) (bestsize + 1) ⟨by dsimp only; omega, by dsimp only; omega,
        by dsimp only; omega, by dsimp only; omega⟩
    · rw [if_neg hg]
      exact ⟨h1, h2, h3, h4⟩

theorem extendFwdF_in (a b : List Char) (ahi bhi alo blo besti bestj : Nat)
    (hbi : alo ≤ besti) (hbj : blo ≤ bestj) :
    ∀ fuel bestsize, besti + bestsize ≤ ahi → bestj + bestsize ≤ bhi →
    BestIn alo ahi blo bhi ⟨besti, bestj, extendFwdF a b ahi bhi besti bestj fuel bestsize⟩ := by
  intro fuel
  induction fuel with
  | zero =>
    intro bestsize h1 h2
    exact ⟨hbi, by simpa only [extendFwdF] using h1, hbj, by simpa only [extendFwdF] using h2⟩
  | succ fuel ih =>
    intro bestsize h1 h2
    simp only [extendFwdF]
    by_cases hg : besti + bestsize < ahi ∧ bestj + bestsize < bhi ∧
        a.getD (besti + bestsize) cdef = b.getD (bestj + bestsize) cdef
    · rw [if_pos hg]
      exact ih (bestsize + 1) (by omega) (by omega)
    · rw [if_neg hg]
      exact ⟨hbi, h1, hbj, h2⟩

theorem findLongestMatch_in (a b : List Char) (alo ahi blo bhi : Nat)
    (h1 : alo ≤ ahi) (h2 : blo ≤ bhi) :
    BestIn alo ahi blo bhi (findLongestMatch a b alo ahi blo bhi) := by
  have hscan := scanLoop_in a b alo ahi blo bhi (ahi - alo) alo (by omega) (le_refl alo)
    (fun _ => 0) ⟨alo, blo, 0⟩ (fun j => ⟨Nat.zero_le _, Nat.zero_le _⟩)
    ⟨le_refl alo, by dsimp only; omega, le_refl blo, by dsimp only; omega⟩
  have hback := extendBack_in a b alo blo ahi bhi
    (scanLoop a b blo bhi (List.range' alo (ahi - alo)) (fun _ => 0) ⟨alo, blo, 0⟩).besti
    (scanLoop a b blo bhi (List.range' alo (ahi - alo)) (fun _ => 0) ⟨alo, blo, 0⟩).bestj
    (scanLoop a b blo bhi (List.range' alo (ahi - alo)) (fun _ => 0) ⟨alo, blo, 0⟩).bestsize
    hscan
  obtain ⟨g1, g2, g3, g4⟩ := hback
  exact extendFwdF_in a b ahi bhi alo blo _ _ g1 g3 ahi _ g2 g4

theorem matchTotal_le (a b : List Char) :
    ∀ fuel alo ahi blo bhi, alo ≤ ahi → blo ≤ bhi →
    matchTotal a b fuel alo ahi blo bhi ≤ ahi - alo ∧
    matchTotal a b fuel alo ahi blo bhi ≤ bhi - blo := by
  intro fuel
  induction fuel with
  | zero => intro alo ahi blo bhi _ _; simp [matchTotal]
  | succ fuel ih =>
    intro alo ahi blo bhi h1 h2
    obtain ⟨g1, g2, g3, g4⟩ := findLongestMatch_in a b alo ahi blo bhi h1 h2
    simp only [matchTotal]
    by_cases hz : (findLongestMatch a b alo ahi blo bhi).bestsize = 0
    · rw [if_pos hz]; omega
    · rw [if_neg hz]
      have hL := ih alo (findLongestMatch a b alo ahi blo bhi).besti blo
        (findLongestMatch a b alo ahi blo bhi).bestj (by omega) (by omega)
      have hR := ih ((findLongestMatch a b alo ahi blo bhi).besti +
          (findLongestMatch a b alo ahi blo bhi).bestsize) ahi
        ((findLongestMatch a b alo ahi blo bhi).bestj +
          (findLongestMatch a b alo ahi blo bhi).bestsize) bhi (by omega) (by omega)
      omega

theorem ratioQ_bounds (a b : List Char) : 0 ≤ ratioQ a b ∧ ratioQ a b ≤ 1 := by
  unfold ratioQ
  by_cases h : a.length + b.length = 0
  · rw [if_pos h]; norm_num
  · rw [if_neg h]
    have hM := matchTotal_le a b (a.length + b.length + 1) 0 a.length 0 b.length
      (Nat.zero_le _) (Nat.zero_le _)
    have hTpos : (0 : ℚ) < ((a.length + b.length : Nat) : ℚ) := by
      exact_mod_cast Nat.pos_of_ne_zero h
    constructor
    · apply div_nonneg _ (le_of_lt hTpos)
      positivity
    · rw [div_le_one hTpos]
      have h2M : 2 * matchTotal a b (a.length + b.length + 1) 0 a.length 0 b.length ≤
          a.length + b.length := by omega
      exact_mod_cast h2M

/-! ## On two identical sequences the scan's best block is diagonal -/

theorem mem_b2jPos {b : List Char} {c : Char} {j : Nat} :
    j ∈ b2jPos b c ↔ popularChar b c = false ∧ j < b.length ∧ b.getD j cdef = c := by
  unfold b2jPos
  by_cases hp : popularChar b c
  · simp [hp]
  · simp [hp, List.mem_filter, List.mem_range]

theorem posList_sorted (l : List Char) (i : Nat) : List.Pairwise (· < ·) (posList l i) := by
  unfold posList b2jPos
  split
  · exact List.Pairwise.nil
  · exact List.Pairwise.filter _ (List.pairwise_lt_range _)

theorem self_mem_posList {l : List Char} {i j : Nat} (hi : i < l.length)
    (hj : j ∈ posList l i) : i ∈ posList l i := by
  obtain ⟨hpop, _, _⟩ := mem_b2jPos.mp hj
  exact mem_b2jPos.mpr ⟨hpop, hi, rfl⟩

theorem mem_posList_comm {l : List Char} {i j : Nat} (hj : j ∈ posList l i) :
    j ∈ posList l j := by
  obtain ⟨hpop, hjl, hchar⟩ := mem_b2jPos.mp hj
  unfold posList at *
  rw [hchar]
  exact mem_b2jPos.mpr ⟨hpop, hjl, hchar⟩

theorem chainD_succ_mem_zero (l : List Char) {i : Nat} (h : 0 ∈ posList l (i + 1)) :
    chainD l (i + 1) 0 = 1 := by
  simp only [chainD, if_pos h]

theorem chainD_succ_mem_succ (l : List Char) {i j' : Nat} (h : j' + 1 ∈ posList l (i + 1)) :
    chainD l (i + 1) (j' + 1) = chainD l i j' + 1 := by
  simp only [chainD, if_pos h]

theorem chainD_zero_mem (l : List Char) {j : Nat} (h : j ∈ posList l 0) :
    chainD l 0 j = 1 := by
  simp only [chainD, if_pos h]

theorem chainD_not_mem (l : List Char) {i j : Nat} (h : j ∉ posList l i) :
    chainD l i j = 0 := by
  cases i <;> simp only [chainD, if_neg h]

theorem chainD_le (l : List Char) : ∀ i j, chainD l i j ≤ i + 1 := by
  intro i
  induction i with
  | zero =>
    intro j
    by_cases h : j ∈ posList l 0
    · rw [chainD_zero_mem l h]
    · rw [chainD_not_mem l h]; omega
  | succ i ih =>
    intro j
    by_cases h : j ∈ posList l (i + 1)
    · cases j with
      | zero => rw [chainD_succ_mem_zero l h]; omega
      | succ j' => rw [chainD_succ_mem_succ l h]; have := ih j'; omega
    · rw [chainD_not_mem l h]; omega

theorem chainD_le_diag (l : List Char) : ∀ i, i < l.length → ∀ j, chainD l i j ≤ chainD l i i := by
  intro i
  induction i with
  | zero =>
    intro hi j
    by_cases hj : j ∈ posList l 0
    · rw [chainD_zero_mem l hj, chainD_zero_mem l (self_mem_posList hi hj)]
    · rw [chainD_not_mem l hj]; omega
  | succ i ih =>
    intro hi j
    by_cases hj : j ∈ posList l (i + 1)
    · have hself := self_mem_posList hi hj
      rw [chainD_succ_mem_succ l hself]
      cases j with
      | zero => rw [chainD_succ_mem_zero l hj]; omega
      | succ j' =>
        rw [chainD_succ_mem_succ l hj]
        have := ih (by omega) j'
        omega
    · rw [chainD_not_mem l hj]; omega

theorem chainD_le_lower (l : List Char) :
    ∀ i, i < l.length → ∀ j, j < i → chainD l i j ≤ chainD l j j := by
  intro i
  induction i with
  | zero => intro _ j hj; exact absurd hj (Nat.not_lt_zero j)
  | succ i ih =>
    intro hi j hj
    by_cases hmem : j ∈ posList l (i + 1)
    · have hjj := mem_posList_comm hmem
      cases j with
      | zero =>
        rw [chainD_succ_mem_zero l hmem, chainD_zero_mem l hjj]
      | succ j' =>
        rw [chainD_succ_mem_succ l hmem, chainD_succ_mem_succ l hjj]
        have hrec : chainD l i j' ≤ chainD l j' j' := by
          by_cases hj' : j' < i
          · exact ih (by omega) j' hj'
          · have : j' = i := by omega
            subst this
            omega
        omega
    · rw [chainD_not_mem l hmem]; omega

theorem innerLoop_diag (l : List Char) (i : Nat) (hi : i < l.length)
    (old : Nat → Nat)
    (hold : ∀ j, old j = if i = 0 then 0 else chainD l (i - 1) j) :
    ∀ (js done : List Nat) (acc : Nat → Nat) (best : Best),
    posList l i = done ++ js →
    (∀ j, acc j = if j ∈ done then chainD l i j else 0) →
    best.besti = best.bestj →
    best.besti + best.bestsize ≤ l.length →
    (∀ i' j, i' < i → chainD l i' j ≤ best.bestsize) →
    (∀ j ∈ done, chainD l i j ≤ best.bestsize) →
    (∀ j, (innerLoop old i js acc best).1 j = chainD l i j) ∧
    (innerLoop old i js acc best).2.besti = (innerLoop old i js acc best).2.bestj ∧
    (innerLoop old i js acc best).2.besti + (innerLoop old i js acc best).2.bestsize ≤ l.length ∧
    (∀ i' j, i' < i → chainD l i' j ≤ (innerLoop old i js acc best).2.bestsize) ∧
    (∀ j ∈ posList l i, chainD l i j ≤ (innerLoop old i js acc best).2.bestsize) := by
  intro js
  induction js with
  | nil =>
    intro done acc best hsplit hacc hdiag hin hprev hdone
    simp only [innerLoop]
    refine ⟨?_, hdiag, hin, hprev, ?_⟩
    · intro j
      rw [hacc j]
      by_cases hd : j ∈ done
      · rw [if_pos hd]
      · rw [if_neg hd]
        refine (chainD_not_mem l ?_).symm
        rw [hsplit, List.append_nil]
        exact hd
    · intro j hj
      rw [hsplit, List.append_nil] at hj
      exact hdone j hj
  | cons j js ih =>
    intro done acc best hsplit hacc hdiag hin hprev hdone
    have hjmem : j ∈ posList l i := by
      rw [hsplit]
      exact List.mem_append.mpr (Or.inr (List.mem_cons_self j js))
    have hk : (if j = 0 then 0 else old (j - 1)) + 1 = chainD l i j := by
      cases i with
      | zero =>
        have h1 : (if j = 0 then 0 else old (j - 1)) = 0 := by
          by_cases h0 : j = 0
          · rw [if_pos h0]
          · rw [if_neg h0, hold]
            simp
        rw [h1, chainD_zero_mem l hjmem]
      | succ i' =>
        cases j with
        | zero => rw [if_pos rfl, chainD_succ_mem_zero l hjmem]
        | succ j'' =>
          rw [if_neg (Nat.succ_ne_zero j''), hold, chainD_succ_mem_succ l hjmem]
          simp
    have hsplit' : posList l i = (done ++ [j]) ++ js := by
      rw [hsplit, List.append_assoc, List.singleton_append]
    have hacc' : ∀ j', (fun j'' => if j'' = j then (if j = 0 then 0 else old (j - 1)) + 1
        else acc j'') j' = if j' ∈ done ++ [j] then chainD l i j' else 0 := by
      intro j'
      by_cases he : j' = j
      · subst he
        dsimp only
        rw [if_pos rfl, if_pos (List.mem_append.mpr (Or.inr (List.mem_singleton.mpr rfl)))]
        exact hk
      · simp only [he, if_false]
        rw [hacc j']
        by_cases hd : j' ∈ done
        · rw [if_pos hd, if_pos (List.mem_append.mpr (Or.inl hd))]
        · rw [if_neg hd, if_neg (by
            intro hmem
            rcases List.mem_append.mp hmem with h | h
            · exact hd h
            · exact he (List.mem_singleton.mp h))]
    simp only [innerLoop]
    by_cases hu : best.bestsize < (if j = 0 then 0 else old (j - 1)) + 1
    · have hji : j = i := by
        rcases Nat.lt_trichotomy j i with hlt | heq | hgt
        · exfalso
          have h1 : chainD l i j ≤ chainD l j j := chainD_le_lower l i hi j hlt
          have h2 : chainD l j j ≤ best.bestsize := hprev j j hlt
          omega
        · exact heq
        · exfalso
          have hidone : i ∈ done := by
            have hipos : i ∈ posList l i := self_mem_posList hi hjmem
            rw [hsplit] at hipos
            rcases List.mem_append.mp hipos with h | h
            · exact h
            · exfalso
              rcases List.mem_cons.mp h with h' | h'
              · omega
              · have hsort := posList_sorted l i
                rw [hsplit] at hsort
                have hpw := (List.pairwise_append.mp hsort).2.1
                have := (List.pairwise_cons.mp hpw).1 i h'
                omega
          have h1 : chainD l i i ≤ best.bestsize := hdone i hidone
          have h2 : chainD l i j ≤ chainD l i i := chainD_le_diag l i hi j
          omega
      rw [if_pos hu]
      subst hji
      apply ih (done ++ [j]) _ _ hsplit' hacc'
      · rfl
      · dsimp only
        have hle := chainD_le l j j
        omega
      · intro i' j' hi'
        dsimp only
        have := hprev i' j' hi'
        omega
      · intro j' hj'
        dsimp only
        rcases List.mem_append.mp hj' with h | h
        · have := hdone j' h
          omega
        · rw [List.mem_singleton.mp h, ← hk]
    · rw [if_neg hu]
      apply ih (done ++ [j]) _ _ hsplit' hacc' hdiag hin hprev
      intro j' hj'
      rcases List.mem_append.mp hj' with h | h
      · exact hdone j' h
      · rw [List.mem_singleton.mp h]
        omega

theorem takeWhile_filter_posList (l : List Char) (i : Nat) :
    ((b2jPos l (l.getD i cdef)).takeWhile (fun j => decide (j < l.length))).filter
      (fun j => decide (0 ≤ j)) = posList l i := by
  have h1 : (b2jPos l (l.getD i cdef)).takeWhile (fun j => decide (j < l.length)) =
      b2jPos l (l.getD i cdef) := by
    apply List.takeWhile_eq_self_iff.mpr
    intro x hx
    exact decide_eq_true (mem_b2jPos.mp hx).2.1
  rw [h1]
  exact List.filter_eq_self.mpr (fun a _ => decide_eq_true (Nat.zero_le a))

theorem scanLoop_diag (l : List Char) :
    ∀ (m i0 : Nat), i0 + m = l.length →
    ∀ (j2len : Nat → Nat) (best : Best),
    (∀ j, j2len j = if i0 = 0 then 0 else chainD l (i0 - 1) j) →
    best.besti = best.bestj →
    best.besti + best.bestsize ≤ l.length →
    (∀ i' j, i' < i0 → chainD l i' j ≤ best.bestsize) →
    (scanLoop l l 0 l.length (List.range' i0 m) j2len best).besti =
      (scanLoop l l 0 l.length (List.range' i0 m) j2len best).bestj ∧
    (scanLoop l l 0 l.length (List.range' i0 m) j2len best).besti +
      (scanLoop l l 0 l.length (List.range' i0 m) j2len best).bestsize ≤ l.length := by
  intro m
  induction m with
  | zero =>
    intro i0 _ j2len best _ hdiag hin _
    rw [show List.range' i0 0 = [] from rfl]
    simp only [scanLoop]
    exact ⟨hdiag, hin⟩
  | succ m ih =>
    intro i0 hsum j2len best hold hdiag hin hprev
    rw [List.range'_succ]
    simp only [scanLoop]
    rw [takeWhile_filter_posList l i0]
    have hi0 : i0 < l.length := by omega
    have hstep := innerLoop_diag l i0 hi0 j2len hold (posList l i0) [] (fun _ => 0) best
      (by simp) (by intro j; simp) hdiag hin hprev
      (fun j hj => absurd hj (List.not_mem_nil j))
    obtain ⟨hj2, hd2, hi2, hp2, hpos2⟩ := hstep
    apply ih (i0 + 1) (by omega)
    · intro j
      rw [hj2 j]
      simp
    · exact hd2
    · exact hi2
    · intro i' j hi'
      by_cases hlt : i' < i0
      · exact hp2 i' j hlt
      · have heq : i' = i0 := by omega
        subst heq
        by_cases hmem : j ∈ posList l i'
        · exact hpos2 j hmem
        · rw [chainD_not_mem l hmem]
          omega

theorem extendBack_self (l : List Char) : ∀ p L, extendBack l l 0 0 p p L = ⟨0, 0, L + p⟩ := by
  intro p
  induction p with
  | zero => intro L; rfl
  | succ p ih =>
    intro L
    simp only [extendBack]
    rw [if_pos ⟨Nat.succ_pos p, Nat.succ_pos p, by trivial⟩]
    rw [show p + 1 - 1 = p from rfl, ih (L + 1)]
    have h : L + 1 + p = L + (p + 1) := by omega
    rw [h]

theorem extendFwdF_self (l : List Char) :
    ∀ fuel m, m ≤ l.length → l.length - m ≤ fuel →
    extendFwdF l l l.length l.length 0 0 fuel m = l.length := by
  intro fuel
  induction fuel with
  | zero => intro m h1 h2; simp only [extendFwdF]; omega
  | succ fuel ih =>
    intro m h1 h2
    simp only [extendFwdF]
    split
    · rename_i hcond
      have hlt : 0 + m < l.length := hcond.1
      exact ih (m + 1) (by omega) (by omega)
    · rename_i hcond
      have hge : ¬ 0 + m < l.length := fun hlt => hcond ⟨hlt, hlt, by trivial⟩
      omega

theorem findLongestMatch_self (l : List Char) :
    findLongestMatch l l 0 l.length 0 l.length = ⟨0, 0, l.length⟩ := by
  obtain ⟨hdiag, hin⟩ := scanLoop_diag l (l.length - 0) 0 (by omega) (fun _ => 0) ⟨0, 0, 0⟩
    (fun j => rfl) rfl (by dsimp only; omega) (fun i' j h => absurd h (Nat.not_lt_zero i'))
  simp only [findLongestMatch]
  rw [← hdiag, extendBack_self l _ _]
  dsimp only
  rw [show extendFwd l l l.length l.length 0 0
      ((scanLoop l l 0 l.length (List.range' 0 (l.length - 0)) (fun _ => 0)
        ⟨0, 0, 0⟩).bestsize +
       (scanLoop l l 0 l.length (List.range' 0 (l.length - 0)) (fun _ => 0)
        ⟨0, 0, 0⟩).besti) =
      extendFwdF l l l.length l.length 0 0 l.length
      ((scanLoop l l 0 l.length (List.range' 0 (l.length - 0)) (fun _ => 0)
        ⟨0, 0, 0⟩).bestsize +
       (scanLoop l l 0 l.length (List.range' 0 (l.length - 0)) (fun _ => 0)
        ⟨0, 0, 0⟩).besti) from rfl]
  rw [extendFwdF_self l l.length _ (by omega) (by omega)]

theorem matchTotal_empty (a b : List Char) (fuel alo blo : Nat) :
    matchTotal a b fuel alo alo blo blo = 0 := by
  cases fuel with
  | zero => simp [matchTotal]
  | succ fuel =>
    simp only [matchTotal]
    obtain ⟨g1, g2, g3, g4⟩ := findLongestMatch_in a b alo alo blo blo (le_refl _) (le_refl _)
    have hz : (findLongestMatch a b alo alo blo blo).bestsize = 0 := by omega
    rw [if_pos hz]

theorem ratioQ_self (l : List Char) (hn : l ≠ []) : ratioQ l l = 1 := by
  have hn' : l.length ≠ 0 := fun h => hn (List.length_eq_zero.mp h)
  unfold ratioQ
  rw [if_neg (by omega)]
  have hM : matchTotal l l (l.length + l.length + 1) 0 l.length 0 l.length = l.length := by
    simp only [matchTotal]
    rw [findLongestMatch_self l]
    dsimp only
    rw [if_neg hn', Nat.zero_add, matchTotal_empty, matchTotal_empty]
    omega
  rw [hM]
  have hcast : ((l.length + l.length : Nat) : ℚ) = 2 * (l.length : ℚ) := by
    push_cast
    ring
  rw [hcast, div_self (mul_ne_zero two_ne_zero (Nat.cast_ne_zero.mpr hn'))]

theorem string_data_ne_nil {s : String} (h : s ≠ "") : s.data ≠ [] := by
  intro hd
  exact h (by
    have hs : s = String.mk s.data := rfl
    rw [hs, hd])

theorem isEmpty_false_of_ne {s : String} (h : s ≠ "") : s.isEmpty = false :=
  eq_false_of_ne_true (fun ht => h ((String.isEmpty_iff s).mp ht))

theorem sim_self (s : String) : calculateSimilarity s s = 1 := by
  by_cases he : s = ""
  · subst he; rfl
  · have hb := isEmpty_false_of_ne he
    simp only [calculateSimilarity, hb, Bool.and_false, Bool.or_false, Bool.false_eq_true,
      if_false]
    exact ratioQ_self s.data (string_data_ne_nil he)

theorem sim_empty_left {s : String} (h : s ≠ "") : calculateSimilarity "" s = 0 := by
  have hb := isEmpty_false_of_ne h
  simp [calculateSimilarity, hb, show ("" : String).isEmpty = true from rfl]

theorem sim_empty_right {s : String} (h : s ≠ "") : calculateSimilarity s "" = 0 := by
  have hb := isEmpty_false_of_ne h
  simp [calculateSimilarity, hb, show ("" : String).isEmpty = true from rfl]

theorem sim_bounds (a b : String) :
    0 ≤ calculateSimilarity a b ∧ calculateSimilarity a b ≤ 1 := by
  unfold calculateSimilarity
  split_ifs
  · norm_num
  · norm_num
  · exact ratioQ_bounds a.data b.data

/-- **C4**: for every string `s`, `_calculate_similarity(s, s) == 1.0`;
`_calculate_similarity("", "") == 1.0`; and for every non-empty `s`,
`_calculate_similarity("", s) == 0.0` and `_calculate_similarity(s, "") == 0.0`.
(The identity case includes strings of length ≥ 200 where the autojunk
heuristic purges popular characters: the scan's best block on two equal
sequences is always on the main diagonal, and the extension loops then
grow it to the whole string.) -/
theorem c4_similarity_identity_and_empty :
    (∀ s : String, calculateSimilarity s s = 1) ∧
    calculateSimilarity "" "" = 1 ∧
    (∀ s : String, s ≠ "" →
      calculateSimilarity "" s = 0 ∧ calculateSimilarity s "" = 0) :=
  ⟨sim_self, rfl, fun _ h => ⟨sim_empty_left h, sim_empty_right h⟩⟩

/-- Witness for C4 at `s = "a"`. -/
theorem c4_witness :
    calculateSimilarity "a" "a" = 1 ∧ ("a" : String) ≠ "" ∧
    calculateSimilarity "" "a" = 0 ∧ calculateSimilarity "a" "" = 0 := by
  have hne : ("a" : String) ≠ "" := by decide
  exact ⟨c4_similarity_identity_and_empty.1 "a", hne,
    (c4_similarity_identity_and_empty.2.2 "a" hne).1,
    (c4_similarity_identity_and_empty.2.2 "a" hne).2⟩

/-- **C5 counterexample**: the similarity score is *not* symmetric.
`_calculate_similarity("aba", "babba")` is `0.75` (the matcher finds
`"ab" = b[1:3]` and then `"a" = b[4:5]`, 3 matched characters of 8),
while `_calculate_similarity("babba", "aba")` is `0.5` (it finds
`"ba" = b[1:3]` and nothing else, 2 matched characters of 8) — the
values CPython's `difflib` returns for this pair. -/
theorem c5_counterexample :
    calculateSimilarity "aba" "babba" = 3/4 ∧
    calculateSimilarity "babba" "aba" = 1/2 ∧
    calculateSimilarity "aba" "babba" ≠ calculateSimilarity "babba" "aba" := by
  have h1 : calculateSimilarity "aba" "babba" = 3/4 := by
    rw [calculateSimilarity]
    norm_num [show ("aba" : String).isEmpty = false from rfl,
      show ("babba" : String).isEmpty = false from rfl, ratioQ,
      show ("aba" : String).data.length = 3 from rfl,
      show ("babba" : String).data.length = 5 from rfl,
      show matchTotal "aba".data "babba".data 9 0 3 0 5 = 3 from by decide]
  have h2 : calculateSimilarity "babba" "aba" = 1/2 := by
    rw [calculateSimilarity]
    norm_num [show ("babba" : String).isEmpty = false from rfl,
      show ("aba" : String).isEmpty = false from rfl, ratioQ,
      show ("babba" : String).data.length = 5 from rfl,
      show ("aba" : String).data.length = 3 from rfl,
      show matchTotal "babba".data "aba".data 9 0 5 0 3 = 2 from by decide]
  refine ⟨h1, h2, ?_⟩
  rw [h1, h2]
  norm_num

/-- **C5 (amended)**: the score always lies in `[0, 1]`, and it is
symmetric when either argument is empty (and on equal arguments, where
it is 1 by C4); full symmetry fails (see the counterexample). -/
theorem c5_amended_bounded_partial_symmetry :
    (∀ a b : String, 0 ≤ calculateSimilarity a b ∧ calculateSimilarity a b ≤ 1) ∧
    (∀ a b : String, (a = "" ∨ b = "") →
      calculateSimilarity a b = calculateSimilarity b a) := by
  refine ⟨sim_bounds, ?_⟩
  rintro a b (rfl | rfl)
  · by_cases hb : b = ""
    · subst hb; rfl
    · rw [sim_empty_left hb, sim_empty_right hb]
  · by_cases ha : a = ""
    · subst ha; rfl
    · rw [sim_empty_left ha, sim_empty_right ha]

/-- Witness for C5 (amended) at `a = "xy"`, `b = ""`. -/
theorem c5_amended_witness :
    (0 ≤ calculateSimilarity "xy" "q" ∧ calculateSimilarity "xy" "q" ≤ 1) ∧
    calculateSimilarity "xy" "" = calculateSimilarity "" "xy" :=
  ⟨c5_amended_bounded_partial_symmetry.1 "xy" "q",
   c5_amended_bounded_partial_symmetry.2 "xy" "" (Or.inr rfl)⟩

/-- **C9**: `_count_tokens_estimate(text) = max(1, len(text) // 4)`; it
is never below 1 and is monotone in the input length. -/
theorem c9_token_estimate :
    (∀ text : String, countTokensEstimate text = max 1 (text.length / 4)) ∧
    (∀ text : String, 1 ≤ countTokensEstimate text) ∧
    (∀ a b : String, a.length ≤ b.length →
      countTokensEstimate a ≤ countTokensEstimate b) := by
  refine ⟨fun _ => rfl, fun _ => le_max_left _ _, ?_⟩
  intro a b h
  unfold countTokensEstimate
  exact max_le_max (le_refl 1) (Nat.div_le_div_right h)

/-- Witness for C9 at `a = "ab"`, `b = "abcdefgh"`. -/
theorem c9_witness :
    countTokensEstimate "ab" = max 1 (("ab" : String).length / 4) ∧
    1 ≤ countTokensEstimate "ab" ∧
    (("ab" : String).length ≤ ("abcdefgh" : String).length ∧
      countTokensEstimate "ab" ≤ countTokensEstimate "abcdefgh") :=
  ⟨c9_token_estimate.1 "ab", c9_token_estimate.2.1 "ab",
   by decide, c9_token_estimate.2.2 "ab" "abcdefgh" (by decide)⟩

/-! ## Field validation (C8) -/

/-- **C8**: for every declared expected type, a `None` value yields
exactly one issue — `invalid_value` of severity `error` (with the
`non-null <type>` expectation and `null` as actual) — emitted before the
type-check table is consulted, with no `wrong_type` and no `empty` issue
for the field. -/
theorem c8_null_invalid_value :
    ∀ expected_type field_path : String,
    validateFieldType .null expected_type field_path =
      [⟨field_path, "invalid_value", "non-null " ++ expected_type, some "null", "error"⟩] :=
  fun _ _ => rfl

/-! ## Configuration loading (C3, C6) -/

theorem find_map_set (k : String) (v : JValue) :
    ∀ fs : List (String × JValue), fs.any (fun kv => kv.1 == k) = true →
    (fs.map (fun kv => if (kv.1 == k) = true then (kv.1, v) else kv)).find?
      (fun kv => kv.1 == k) = some (k, v) := by
  intro fs
  induction fs with
  | nil => intro h; simp at h
  | cons kv fs ih =>
    intro h
    by_cases he : (kv.1 == k) = true
    · have hk1 : kv.1 = k := by simpa using he
      rw [List.map_cons, if_pos he, hk1]
      simp [List.find?_cons]
    · rw [List.map_cons, if_neg he, List.find?_cons_of_neg _ (by simpa using he)]
      apply ih
      simp only [List.any_cons, Bool.or_eq_true] at h
      tauto

theorem find_append_key (k : String) (v : JValue) :
    ∀ fs : List (String × JValue), fs.any (fun kv => kv.1 == k) = false →
    (fs ++ [(k, v)]).find? (fun kv => kv.1 == k) = some (k, v) := by
  intro fs
  induction fs with
  | nil =>
    intro _
    rw [List.nil_append, List.find?_cons_of_pos _ (by simp)]
  | cons kv fs ih =>
    intro h
    simp only [List.any_cons, Bool.or_eq_false_iff] at h
    rw [List.cons_append, List.find?_cons_of_neg _ (by simp [h.1])]
    exact ih h.2

theorem pyGet_setKey (fs : List (String × JValue)) (k : String) (v : JValue) :
    pyGet (setKey fs k v) k = some v := by
  unfold setKey pyGet
  split
  · rename_i hany
    rw [find_map_set k v fs hany]
    rfl
  · rename_i hany
    rw [find_append_key k v fs (eq_false_of_ne_true hany)]
    rfl

theorem providerFromDict_openai (data : List (String × JValue))
    (hget : pyGetD data "api_style" (.str "openai") = .str "openai") :
    ∀ p, providerFromDict data = .ok p → p.api_style = .openai := by
  intro p hp
  unfold providerFromDict at hp
  rw [hget] at hp
  simp only [show pyFalsy (JValue.str "openai") = false from rfl, Bool.false_eq_true,
    if_false, show apiStyleOfJ (JValue.str "openai") = .ok .openai from rfl] at hp
  simp only [Except.bind, bind] at hp
  rcases hauth : authTypeOfJ (if pyFalsy (pyGetD data "auth_type" (.str "api_key")) = true
      then JValue.str "api_key" else pyGetD data "auth_type" (.str "api_key")) with e | a
  · rw [hauth] at hp
    cases hp
  · rw [hauth] at hp
    by_cases hoa : pyFalsy (pyGetD data "oauth_detail" .null) = true
    · rw [if_pos hoa] at hp
      simp only [pure, Except.pure] at hp
      cases hp
      rfl
    · rw [if_neg hoa] at hp
      rcases hod : oauthDetailOfJ (pyGetD data "oauth_detail" .null) with e | od
      · rw [hod] at hp
        cases hp
      · rw [hod] at hp
        simp only [pure, Except.pure] at hp
        cases hp
        rfl

theorem providerFromDict_unknown_style (data : List (String × JValue)) (s : String)
    (hget : pyGetD data "api_style" (.str "openai") = .str s)
    (hne : s ≠ "") (h1 : s ≠ "openai") (h2 : s ≠ "anthropic") (h3 : s ≠ "google") :
    providerFromDict data = .error .valueError := by
  unfold providerFromDict
  rw [hget]
  dsimp only
  have hfalsy : pyFalsy (JValue.str s) = false := by
    simp [pyFalsy, isEmpty_false_of_ne hne]
  rw [hfalsy]
  simp only [Bool.false_eq_true, if_false]
  have hsty : apiStyleOfJ (.str s) = .error .valueError := by
    simp [apiStyleOfJ, h1, h2, h3]
  rw [hsty]
  rfl

/-- **C3 counterexample**: with both `providers_v2` and the legacy
`providers` present, `_load_json` constructs providers from BOTH lists —
the loaded provider names are `v2p` *and* `legacy`, so a `Provider` is
constructed from the legacy list, contradicting the claim. -/
theorem c3_counterexample :
    (loadProvidersJson
      [("providers_v2", .arr [.obj [("name", .str "v2p")]]),
       ("providers", .arr [.obj [("name", .str "legacy")]])]).map
      (fun ps => ps.map Provider.name) =
      .ok [JValue.str "v2p", JValue.str "legacy"] := rfl

/-- **C3 (amended)**: when the loaded JSON has both a `providers_v2`
array and a legacy `providers` array, `TestConfig.providers` is built
from BOTH — the versioned entries first, then the legacy entries
(`provider_sources` collects both lists and the loop appends from each
in order). -/
theorem c3_amended_both_sources (data : List (String × JValue))
    (v2 legacy : List JValue)
    (h2 : pyGet data "providers_v2" = some (.arr v2))
    (h1 : pyGet data "providers" = some (.arr legacy)) :
    loadProvidersJson data = .ok (loadSource v2 ++ loadSource legacy) := by
  unfold loadProvidersJson
  rw [h2, h1]
  dsimp only
  rw [show List.mapM pyIter ([JValue.arr v2] ++ [JValue.arr legacy]) =
      Except.ok [v2, legacy] from rfl]
  simp [bind, Except.bind, pure, Except.pure, List.flatten_cons, List.flatten_nil]

/-- Witness for C3 (amended) at the two-entry configuration of the
counterexample. -/
theorem c3_amended_witness :
    loadProvidersJson
      [("providers_v2", .arr [.obj [("name", .str "v2p")]]),
       ("providers", .arr [.obj [("name", .str "legacy")]])] =
      .ok (loadSource [.obj [("name", .str "v2p")]] ++
        loadSource [.obj [("name", .str "legacy")]]) :=
  c3_amended_both_sources _ _ _ rfl rfl

/-- **C6 counterexample**: a provider entry whose `api_style` is the
unrecognised string `bogus` is NOT loaded: `APIStyle("bogus")` raises
`ValueError` inside `Provider.from_dict`, the per-provider `except`
catches it, and the entry is skipped, so no provider results. -/
theorem c6_counterexample :
    loadProvidersJson [("providers", .arr [.obj [("name", .str "x"),
      ("api_style", .str "bogus")]])] = .ok [] := rfl

/-- **C6 (amended)**: a *missing or falsy* `api_style` defaults to the
OpenAI dialect and the provider is loaded with `api_style = openai`; an
*unrecognised non-empty* `api_style` string instead raises `ValueError`
in `Provider.from_dict` and the loader skips that provider entirely. -/
theorem c6_amended_style_default_or_skip (fs : List (String × JValue)) :
    ((pyGet fs "api_style" = none ∨ pyFalsy (pyGetD fs "api_style" .null) = true) →
      ∀ p, loadProviderItem (.obj fs) = some p → p.api_style = .openai) ∧
    (∀ s : String, pyGet fs "api_style" = some (.str s) → s ≠ "" →
      s ≠ "openai" → s ≠ "anthropic" → s ≠ "google" →
      loadProviderItem (.obj fs) = none) := by
  constructor
  · intro hcond p hp
    simp only [loadProviderItem] at hp
    by_cases hd : isDisabled (pyGet fs "enabled") = true
    · rw [if_pos hd] at hp
      cases hp
    · rw [if_neg hd] at hp
      have hbool : ((pyGet fs "api_style").isNone ||
          pyFalsy (pyGetD fs "api_style" .null)) = true := by
        rcases hcond with h | h
        · simp [h]
        · simp [h]
      rw [if_pos hbool] at hp
      rcases hfd : providerFromDict (setKey fs "api_style" (.str "openai")) with e | q
      · rw [hfd] at hp
        cases hp
      · rw [hfd] at hp
        cases hp
        exact providerFromDict_openai _ (by rw [pyGetD, pyGet_setKey]; rfl) _ hfd
  · intro s hget hne h1 h2 h3
    simp only [loadProviderItem]
    by_cases hd : isDisabled (pyGet fs "enabled") = true
    · rw [if_pos hd]
    · rw [if_neg hd]
      have hfalsy : pyFalsy (pyGetD fs "api_style" .null) = false := by
        rw [pyGetD, hget]
        simp [pyFalsy, isEmpty_false_of_ne hne]
      have hbool : ((pyGet fs "api_style").isNone ||
          pyFalsy (pyGetD fs "api_style" .null)) = false := by
        rw [hget, hfalsy]
        rfl
      rw [if_neg (by simp [hbool])]
      rw [providerFromDict_unknown_style fs s (by rw [pyGetD, hget]; rfl) hne h1 h2 h3]

/-- Witness for C6 (amended): a provider dict without `api_style` loads
with the OpenAI default, and one with `api_style = "bogus"` is skipped. -/
theorem c6_amended_witness :
    ({ name := JValue.str "n" } : Provider).api_style = APIStyle.openai ∧
    loadProviderItem (.obj [("name", .str "x"), ("api_style", .str "bogus")]) = none :=
  ⟨(c6_amended_style_default_or_skip [("name", JValue.str "n")]).1 (Or.inl rfl)
      { name := JValue.str "n" } rfl,
   (c6_amended_style_default_or_skip [("name", .str "x"), ("api_style", .str "bogus")]).2
     "bogus" rfl (by decide) (by decide) (by decide) (by decide)⟩

/-! ## Failure handling across comparisons (C2) -/

/-- **C2 counterexample**: in the roundtrip-pair comparison a failed
proxy call does NOT yield verdict `fail`: the failed call's response is
simply not collected, fewer than two responses remain, and the verdict
is `inconclusive` with the generic insufficiency error — the per-path
error (`HTTP 500`) is not carried. -/
theorem c2_counterexample :
    (testRoundtripOAO none none none failingOpenaiClient).verdict = "inconclusive" ∧
    (testRoundtripOAO none none none failingOpenaiClient).error =
      some "Need at least 2 responses for comparison" ∧
    (testRoundtripOAO none none none failingOpenaiClient).verdict ≠ "fail" := by
  refine ⟨rfl, rfl, ?_⟩
  rw [show (testRoundtripOAO none none none failingOpenaiClient).verdict = "inconclusive"
    from rfl]
  decide

/-- **C2 (amended)**: only the three-path comparison turns a failed
proxy call into verdict `fail` carrying the joined per-path errors; the
roundtrip-pair comparison drops failed calls and returns the generic
`inconclusive` insufficiency result whenever either call fails, and the
multi-provider comparison does the same when fewer than two successful
responses remain. -/
theorem c2_amended_failure_handling :
    (∀ (rules : List Rule)
      (client : String → String → String → Option String → TestResult)
      (style : APIStyle) (base : String) (dr xr rr : Rule) (ds xs rs rh : String),
      getRuleByRequestModel rules base = some dr →
      getRuleByRequestModel rules (base ++ "-xform") = some xr →
      getRuleByRequestModel rules (base ++ "-rt") = some rr →
      (if style = APIStyle.anthropic then ("anthropic", "openai", "anthropic", "openai")
        else ("openai", "anthropic", "openai", "anthropic")) = (ds, xs, rs, rh) →
      (List.filter (fun p => !p.result.success)
        [runPath client "direct" ds dr.scenario dr.request_model none,
         runPath client "xform" xs xr.scenario xr.request_model none,
         runPath client "roundtrip" rs rr.scenario rr.request_model
           (some rh)]).isEmpty = false →
      testThreePathForProvider rules client style base = .ok
        { test_name := base ++ "_three_path"
          comparison_type := "three_path"
          passed := false
          verdict := "fail"
          message := "One or more paths failed"
          detail := String.intercalate " | "
            (List.map (fun p => p.name ++ "=" ++ p.endpoint)
              [runPath client "direct" ds dr.scenario dr.request_model none,
               runPath client "xform" xs xr.scenario xr.request_model none,
               runPath client "roundtrip" rs rr.scenario rr.request_model (some rh)])
          paths := List.map pathFailEntry
            [runPath client "direct" ds dr.scenario dr.request_model none,
             runPath client "xform" xs xr.scenario xr.request_model none,
             runPath client "roundtrip" rs rr.scenario rr.request_model (some rh)]
          error := some (String.intercalate "; "
            (List.map (fun p => pathErrorText p.result.error)
              (List.filter (fun p => !p.result.success)
                [runPath client "direct" ds dr.scenario dr.request_model none,
                 runPath client "xform" xs xr.scenario xr.request_model none,
                 runPath client "roundtrip" rs rr.scenario rr.request_model
                   (some rh)]))) }) ∧
    (∀ (openai_rule anthropic_rule : Option Rule) (model : Option String)
      (client : String → String → TestResult),
      ((client ((ruleModelOr openai_rule model).getD "")
          (ruleScenarioOr openai_rule "openai")).success = false ∨
       (client ((ruleModelOr anthropic_rule model).getD "")
          (ruleScenarioOr anthropic_rule "anthropic")).success = false) →
      testRoundtripOAO openai_rule anthropic_rule model client =
        { test_name := "roundtrip_o_a_o"
          comparison_type := "roundtrip"
          passed := false
          verdict := "inconclusive"
          message := "Insufficient responses for comparison"
          error := some "Need at least 2 responses for comparison" }) ∧
    (∀ (items : List MPItem) (client : String → String → String → TestResult),
      ((items.map (fun it =>
        let s := mpDest it
        (s.1, s.2.2, client s.1 s.2.1 s.2.2))).filterMap
        (fun e => if e.2.2.success then some (e.1, rawOfOpt e.2.2.raw_response)
          else none)).length < 2 →
      testMultiProvider items client =
        { test_name := "multi_provider_consistency"
          comparison_type := "cross_provider"
          passed := false
          verdict := "inconclusive"
          message := "Insufficient responses for multi-provider comparison"
          error := some "Need at least 2 provider responses" }) := by
  refine ⟨?_, ?_, ?_⟩
  · intro rules client style base dr xr rr ds xs rs rh h1 h2 h3 hsty hf
    unfold testThreePathForProvider
    rw [h1, h2, h3]
    dsimp only
    rw [hsty]
    dsimp only
    rw [hf]
    rfl
  · intro openai_rule anthropic_rule model client hfail
    unfold testRoundtripOAO
    dsimp only
    rcases hfail with hd | ht
    · rw [hd]
      by_cases ht' : (client ((ruleModelOr anthropic_rule model).getD "")
          (ruleScenarioOr anthropic_rule "anthropic")).success = true
      · rw [ht']
        rfl
      · rw [eq_false_of_ne_true ht']
        rfl
    · rw [ht]
      by_cases hd' : (client ((ruleModelOr openai_rule model).getD "")
          (ruleScenarioOr openai_rule "openai")).success = true
      · rw [hd']
        rfl
      · rw [eq_false_of_ne_true hd']
        rfl
  · intro items client hlen
    unfold testMultiProvider
    dsimp only
    rw [if_pos hlen]
    rfl

/-- Witness for C2 (amended): with the openai-scenario call failing, the
roundtrip-pair comparison returns the `inconclusive` insufficiency
result. -/
theorem c2_amended_witness :
    testRoundtripOAO none none none failingOpenaiClient =
      { test_name := "roundtrip_o_a_o"
        comparison_type := "roundtrip"
        passed := false
        verdict := "inconclusive"
        message := "Insufficient responses for comparison"
        error := some "Need at least 2 responses for comparison" } :=
  c2_amended_failure_handling.2.1 none none none failingOpenaiClient (Or.inl rfl)

/-! ## Passed/verdict coherence (C10) -/

theorem bind_ok {α β : Type} {e : Except PyErr α} {f : α → Except PyErr β} {b : β}
    (h : e >>= f = .ok b) : ∃ a, e = .ok a ∧ f a = .ok b := by
  cases e with
  | error err => exact absurd h (by simp [bind, Except.bind])
  | ok a => exact ⟨a, rfl, by simpa [bind, Except.bind] using h⟩

theorem verdict_two (p : Bool) :
    p = ((if p then "pass" else "inconclusive") == "pass") := by
  cases p <;> decide

theorem verdict_three (p d : Bool) :
    p = ((if p then "pass" else if d then "fail" else "inconclusive") == "pass") := by
  cases p <;> cases d <;> decide

theorem verdict_pass_fail (p : Bool) :
    p = ((if p then "pass" else "fail") == "pass") := by
  cases p <;> decide

theorem passed_verdict_shape (p : Bool) (q : Prop) [Decidable q] :
    (p && ((if q then "inconclusive" else if p then "pass" else "fail") == "pass")) =
      ((if q then "inconclusive" else if p then "pass" else "fail") == "pass") := by
  by_cases hq : q
  · rw [if_pos hq, show (("inconclusive" == "pass") : Bool) = false from by decide,
      Bool.and_false]
  · rw [if_neg hq]
    cases p
    · rw [show ((if (false : Bool) = true then "pass" else "fail") == "pass") = false
        from by decide, Bool.and_false]
    · rw [show ((if (true : Bool) = true then "pass" else "fail") == "pass") = true
        from by decide, Bool.and_true]

theorem exceptFallback_passed (body : Except PyErr DifferentialResult)
    (fb : PyErr → DifferentialResult)
    (hok : ∀ r, body = .ok r → r.passed = (r.verdict == "pass"))
    (hfb : ∀ e, (fb e).passed = ((fb e).verdict == "pass")) :
    (exceptFallback body fb).passed = ((exceptFallback body fb).verdict == "pass") := by
  cases body with
  | ok r => exact hok r rfl
  | error e => exact hfb e

theorem threePathOk_passed (b : String) (dp xp rp : PathInfo) (res : DifferentialResult)
    (h : threePathOk b dp xp rp = .ok res) : res.passed = (res.verdict == "pass") := by
  unfold threePathOk at h
  obtain ⟨n1, hn1, h⟩ := bind_ok h
  try dsimp only at h
  obtain ⟨n2, hn2, h⟩ := bind_ok h
  try dsimp only at h
  obtain ⟨n3, hn3, h⟩ := bind_ok h
  try dsimp only at h
  obtain ⟨s1, hs1, h⟩ := bind_ok h
  try dsimp only at h
  obtain ⟨s2, hs2, h⟩ := bind_ok h
  try dsimp only at h
  obtain ⟨t1, ht1, h⟩ := bind_ok h
  try dsimp only at h
  obtain ⟨t2, ht2, h⟩ := bind_ok h
  try dsimp only at h
  obtain ⟨t3, ht3, h⟩ := bind_ok h
  simp only [pure, Except.pure] at h
  injection h with h
  subst h
  dsimp only
  exact passed_verdict_shape _ _

theorem roundtripCompare_passed (tn mo : String) (b c : JValue) (res : DifferentialResult)
    (h : roundtripCompare tn mo b c = .ok res) : res.passed = (res.verdict == "pass") := by
  unfold roundtripCompare at h
  obtain ⟨bn, hbn, h⟩ := bind_ok h
  try dsimp only at h
  obtain ⟨cn, hcn, h⟩ := bind_ok h
  try dsimp only at h
  simp only [pure, Except.pure] at h
  injection h with h
  subst h
  dsimp only
  exact verdict_two _

theorem multiProviderJudge_passed (sims : List SimPair) :
    (multiProviderJudge sims).passed = ((multiProviderJudge sims).verdict == "pass") := by
  unfold multiProviderJudge
  dsimp only
  exact verdict_three _ _

/-- **C10**: every result any of the five test methods returns has its
boolean `passed` field true exactly when its `verdict` string is
`pass` — for the three-path test on every normal (non-raising) return,
and unconditionally for the two roundtrip tests, the multi-provider
test and the structure test, whose exception handlers are covered by
the fallback case. -/
theorem c10_passed_iff_verdict_pass :
    (∀ (rules : List Rule)
      (client : String → String → String → Option String → TestResult)
      (style : APIStyle) (base : String) (res : DifferentialResult),
      testThreePathForProvider rules client style base = .ok res →
      res.passed = (res.verdict == "pass")) ∧
    (∀ (openai_rule anthropic_rule : Option Rule) (model : Option String)
      (client : String → String → TestResult),
      (testRoundtripOAO openai_rule anthropic_rule model client).passed =
        ((testRoundtripOAO openai_rule anthropic_rule model client).verdict == "pass")) ∧
    (∀ (openai_rule anthropic_rule : Option Rule) (model : Option String)
      (client : String → String → TestResult),
      (testAnthropicRoundtrip openai_rule anthropic_rule model client).passed =
        ((testAnthropicRoundtrip openai_rule anthropic_rule model client).verdict ==
          "pass")) ∧
    (∀ (items : List MPItem) (client : String → String → String → TestResult),
      (testMultiProvider items client).passed =
        ((testMultiProvider items client).verdict == "pass")) ∧
    (∀ (rule : Option Rule) (model : Option String) (client : String → String → TestResult),
      (testResponseStructure rule model client).passed =
        ((testResponseStructure rule model client).verdict == "pass")) := by
  refine ⟨?_, ?_, ?_, ?_, ?_⟩
  · intro rules client style base res h
    unfold testThreePathForProvider at h
    dsimp only at h
    rcases h1 : getRuleByRequestModel rules base with _ | dr <;>
      rcases h2 : getRuleByRequestModel rules (base ++ "-xform") with _ | xr <;>
        rcases h3 : getRuleByRequestModel rules (base ++ "-rt") with _ | rr <;>
          rw [h1, h2, h3] at h <;> dsimp only at h
    case none.none.none =>
      simp only [pure, Except.pure] at h
      injection h with h
      subst h
      exact (by decide : (false : Bool) = (("inconclusive" == "pass") : Bool))
    case none.none.some =>
      simp only [pure, Except.pure] at h
      injection h with h
      subst h
      exact (by decide : (false : Bool) = (("inconclusive" == "pass") : Bool))
    case none.some.none =>
      simp only [pure, Except.pure] at h
      injection h with h
      subst h
      exact (by decide : (false : Bool) = (("inconclusive" == "pass") : Bool))
    case none.some.some =>
      simp only [pure, Except.pure] at h
      injection h with h
      subst h
      exact (by decide : (false : Bool) = (("inconclusive" == "pass") : Bool))
    case some.none.none =>
      simp only [pure, Except.pure] at h
      injection h with h
      subst h
      exact (by decide : (false : Bool) = (("inconclusive" == "pass") : Bool))
    case some.none.some =>
      simp only [pure, Except.pure] at h
      injection h with h
      subst h
      exact (by decide : (false : Bool) = (("inconclusive" == "pass") : Bool))
    case some.some.none =>
      simp only [pure, Except.pure] at h
      injection h with h
      subst h
      exact (by decide : (false : Bool) = (("inconclusive" == "pass") : Bool))
    case some.some.some =>
      split at h <;> split at h <;>
        first
          | (try simp only [pure, Except.pure] at h
             injection h with h
             subst h
             exact (by decide : (false : Bool) = (("fail" == "pass") : Bool)))
          | exact threePathOk_passed _ _ _ _ res h
  · intro openai_rule anthropic_rule model client
    unfold testRoundtripOAO
    dsimp only
    by_cases hd : (client ((ruleModelOr openai_rule model).getD "")
        (ruleScenarioOr openai_rule "openai")).success = true
    · rw [hd]
      by_cases ht : (client ((ruleModelOr anthropic_rule model).getD "")
          (ruleScenarioOr anthropic_rule "anthropic")).success = true
      · rw [ht]
        exact exceptFallback_passed _ _
          (fun r hr => roundtripCompare_passed _ _ _ _ r hr)
          (fun _ => (by decide : (false : Bool) = (("inconclusive" == "pass") : Bool)))
      · rw [eq_false_of_ne_true ht]
        exact (by decide : (false : Bool) = (("inconclusive" == "pass") : Bool))
    · rw [eq_false_of_ne_true hd]
      by_cases ht : (client ((ruleModelOr anthropic_rule model).getD "")
          (ruleScenarioOr anthropic_rule "anthropic")).success = true
      · rw [ht]
        exact (by decide : (false : Bool) = (("inconclusive" == "pass") : Bool))
      · rw [eq_false_of_ne_true ht]
        exact (by decide : (false : Bool) = (("inconclusive" == "pass") : Bool))
  · intro openai_rule anthropic_rule model client
    unfold testAnthropicRoundtrip
    dsimp only
    by_cases hd : (client ((ruleModelOr anthropic_rule model).getD "")
        (ruleScenarioOr anthropic_rule "anthropic")).success = true
    · rw [hd]
      by_cases ht : (client ((ruleModelOr openai_rule model).getD "")
          (ruleScenarioOr openai_rule "openai")).success = true
      · rw [ht]
        exact exceptFallback_passed _ _
          (fun r hr => roundtripCompare_passed _ _ _ _ r hr)
          (fun _ => (by decide : (false : Bool) = (("inconclusive" == "pass") : Bool)))
      · rw [eq_false_of_ne_true ht]
        exact (by decide : (false : Bool) = (("inconclusive" == "pass") : Bool))
    · rw [eq_false_of_ne_true hd]
      by_cases ht : (client ((ruleModelOr openai_rule model).getD "")
          (ruleScenarioOr openai_rule "openai")).success = true
      · rw [ht]
        exact (by decide : (false : Bool) = (("inconclusive" == "pass") : Bool))
      · rw [eq_false_of_ne_true ht]
        exact (by decide : (false : Bool) = (("inconclusive" == "pass") : Bool))
  · intro items client
    unfold testMultiProvider
    dsimp only
    split
    · exact (by decide : (false : Bool) = (("inconclusive" == "pass") : Bool))
    · apply exceptFallback_passed
      · intro r hr
        obtain ⟨nl, hnl, hr⟩ := bind_ok hr
        try dsimp only at hr
        simp only [pure, Except.pure] at hr
        injection hr with hr
        subst hr
        dsimp only
        exact multiProviderJudge_passed _
      · intro e
        exact (by decide : (false : Bool) = (("inconclusive" == "pass") : Bool))
  · intro rule model client
    unfold testResponseStructure
    dsimp only
    split
    · exact (by decide : (false : Bool) = (("inconclusive" == "pass") : Bool))
    · apply exceptFallback_passed
      · intro r hr
        obtain ⟨mf, hmf, hr⟩ := bind_ok hr
        try dsimp only at hr
        obtain ⟨d2, hd2, hr⟩ := bind_ok hr
        try dsimp only at hr
        obtain ⟨d3, hd3, hr⟩ := bind_ok hr
        try dsimp only at hr
        simp only [pure, Except.pure] at hr
        injection hr with hr
        subst hr
        dsimp only
        exact verdict_pass_fail _
      · intro e
        exact (by decide : (false : Bool) = (("inconclusive" == "pass") : Bool))

/-- Witness for C10: the three-path conjunct applied at empty rules,
where the missing-rules branch returns the inconclusive result, whose
`passed` field is `false` and whose verdict is not `pass`. -/
theorem c10_witness :
    (testThreePathForProvider [] failingDirectClient APIStyle.openai "m" = Except.ok
      { test_name := "m_three_path"
        comparison_type := "three_path"
        passed := false
        verdict := "inconclusive"
        message := "Missing differential rules for provider"
        error := some "Missing one or more differential rules (direct/xform/roundtrip)" }) ∧
    (false : Bool) = (("inconclusive" == "pass") : Bool) :=
  ⟨rfl,
    c10_passed_iff_verdict_pass.1 [] failingDirectClient APIStyle.openai "m"
      { test_name := "m_three_path"
        comparison_type := "three_path"
        passed := false
        verdict := "inconclusive"
        message := "Missing differential rules for provider"
        error := some "Missing one or more differential rules (direct/xform/roundtrip)" }
      rfl⟩

/-! ## Style-aware normalization on absent substructures (C7) -/

/-- **C7 counterexample**: style normalization is NOT total on every
raw response dict: an OpenAI-style body whose `choices` list holds a
non-dict (`{"choices": [5]}`) raises `AttributeError` when the code
calls `.get` on the first choice. -/
theorem c7_counterexample :
    normalizeResponseStyle "openai" (.obj [("choices", .arr [.num 5])]) =
      .error .attributeError := by rfl

/-- **C7 (amended)**: normalization does not raise on ABSENT (or falsy)
substructures — with a falsy `choices` and no `usage` key the OpenAI
branch returns empty content, role and finish reason and null token
counts, and symmetrically for the non-OpenAI branch with a falsy
`content` — but a PRESENT malformed substructure can raise; the
`choices == []` body in particular yields content `""`. -/
theorem c7_amended_absent_substructures :
    (∀ fs : List (String × JValue),
      pyFalsy (pyGetD fs "choices" (.arr [])) = true →
      pyGet fs "usage" = none →
      normalizeResponseStyle "openai" (.obj fs) =
        .ok ⟨pyGetD fs "model" (.str ""), .str "", .str "", .null, .null, .str ""⟩) ∧
    (∀ fs : List (String × JValue),
      pyFalsy (pyGetD fs "content" (.arr [])) = true →
      pyGet fs "usage" = none →
      normalizeResponseStyle "anthropic" (.obj fs) =
        .ok ⟨pyGetD fs "model" (.str ""),
          pyOr (pyGetD fs "role" (.str "")) (.str ""),
          pyOr (pyGetD fs "stop_reason" (.str "")) (.str ""),
          .null, .null, .str ""⟩) ∧
    normalizeResponseStyle "openai" (.obj [("choices", .arr [])]) =
      .ok ⟨.str "", .str "", .str "", .null, .null, .str ""⟩ := by
  refine ⟨?_, ?_, by rfl⟩
  · intro fs h1 h2
    have hc : pyOr (pyGetD fs "choices" (.arr [])) (.arr []) = .arr [] := by
      unfold pyOr
      rw [h1]
      rfl
    have hu : pyGetD fs "usage" .null = .null := by
      unfold pyGetD
      rw [h2]
      rfl
    unfold normalizeResponseStyle
    dsimp only [pyDictGetD, bind, Except.bind]
    rw [if_pos rfl, hc, hu]
    rfl
  · intro fs h1 h2
    have hc : pyOr (pyGetD fs "content" (.arr [])) (.arr []) = .arr [] := by
      unfold pyOr
      rw [h1]
      rfl
    have hu : pyGetD fs "usage" .null = .null := by
      unfold pyGetD
      rw [h2]
      rfl
    unfold normalizeResponseStyle
    dsimp only [pyDictGetD, bind, Except.bind]
    rw [if_neg (by decide), hc, hu]
    rfl

/-- Witness for C7 (amended): the OpenAI conjunct applied at the body
`{"choices": []}`, whose hypotheses hold by evaluation. -/
theorem c7_amended_witness :
    pyFalsy (pyGetD [("choices", JValue.arr [])] "choices" (.arr [])) = true ∧
    pyGet [("choices", JValue.arr [])] "usage" = none ∧
    normalizeResponseStyle "openai" (.obj [("choices", .arr [])]) =
      .ok ⟨.str "", .str "", .str "", .null, .null, .str ""⟩ :=
  ⟨by rfl, by rfl,
    c7_amended_absent_substructures.1 [("choices", JValue.arr [])] (by rfl) (by rfl)⟩

/-! ## Multi-provider consistency judgement (C1) -/

theorem mem_insertBySim {a x : SimPair} {l : List SimPair} :
    a ∈ insertBySim x l ↔ a = x ∨ a ∈ l := by
  induction l with
  | nil => simp [insertBySim]
  | cons y ys ih =>
    unfold insertBySim
    split
    · simp only [List.mem_cons, ih]
      tauto
    · simp only [List.mem_cons]

theorem insertBySim_sorted {x : SimPair} {l : List SimPair}
    (h : l.Pairwise (fun p q => p.similarity ≤ q.similarity)) :
    (insertBySim x l).Pairwise (fun p q => p.similarity ≤ q.similarity) := by
  induction l with
  | nil => simp [insertBySim]
  | cons y ys ih =>
    rcases List.pairwise_cons.mp h with ⟨hy, hys⟩
    unfold insertBySim
    split
    · rename_i hle
      refine List.pairwise_cons.mpr ⟨?_, ih hys⟩
      intro b hb
      rcases mem_insertBySim.mp hb with rfl | hb'
      · exact hle
      · exact hy b hb'
    · rename_i hgt
      refine List.pairwise_cons.mpr ⟨?_, h⟩
      intro b hb
      rcases List.mem_cons.mp hb with rfl | hb'
      · exact le_of_lt (lt_of_not_le hgt)
      · exact le_trans (le_of_lt (lt_of_not_le hgt)) (hy b hb')

theorem mem_sortBySim_fold (l : List SimPair) :
    ∀ (acc : List SimPair) (a : SimPair),
      a ∈ l.foldl (fun acc x => insertBySim x acc) acc ↔ a ∈ acc ∨ a ∈ l := by
  induction l with
  | nil =>
    intro acc a
    simp
  | cons x xs ih =>
    intro acc a
    rw [List.foldl_cons, ih, mem_insertBySim, List.mem_cons]
    tauto

theorem sorted_sortBySim_fold (l : List SimPair) :
    ∀ acc : List SimPair, acc.Pairwise (fun p q => p.similarity ≤ q.similarity) →
      (l.foldl (fun acc x => insertBySim x acc) acc).Pairwise
        (fun p q => p.similarity ≤ q.similarity) := by
  induction l with
  | nil => intro acc h; exact h
  | cons x xs ih =>
    intro acc h
    rw [List.foldl_cons]
    exact ih _ (insertBySim_sorted h)

theorem sortBySim_mem (l : List SimPair) (a : SimPair) :
    a ∈ sortBySim l ↔ a ∈ l := by
  unfold sortBySim
  rw [mem_sortBySim_fold]
  simp

theorem sortBySim_sorted (l : List SimPair) :
    (sortBySim l).Pairwise (fun p q => p.similarity ≤ q.similarity) :=
  sorted_sortBySim_fold l [] (by simp)

theorem sortBySim_ne_nil {l : List SimPair} (h : l ≠ []) : sortBySim l ≠ [] := by
  intro hnil
  rcases l with _ | ⟨x, xs⟩
  · exact h rfl
  · have hx : x ∈ sortBySim (x :: xs) :=
      (sortBySim_mem _ _).mpr (List.mem_cons_self x xs)
    rw [hnil] at hx
    exact absurd hx (List.not_mem_nil x)

theorem multiProviderJudge_minority (sims : List SimPair) (m : SimPair)
    (rest : List SimPair) (hs : sortBySim sims = m :: rest) :
    (multiProviderJudge sims).minority = m := by
  unfold multiProviderJudge
  dsimp only
  rw [hs]

theorem multiProviderJudge_avg (sims : List SimPair) (hE : sims.isEmpty = false) :
    (multiProviderJudge sims).avg =
      (sims.map SimPair.similarity).sum / (sims.length : ℚ) := by
  unfold multiProviderJudge
  dsimp only
  rw [hE]
  rfl

theorem multiProviderJudge_guilty (sims : List SimPair) (m : SimPair)
    (rest : List SimPair) (hs : sortBySim sims = m :: rest) (hE : sims.isEmpty = false) :
    (multiProviderJudge sims).minority_guilty = true ↔
      m.similarity < (sims.map SimPair.similarity).sum / (sims.length : ℚ) - 1/5 := by
  have h1 : (multiProviderJudge sims).minority_guilty =
      decide (m.similarity <
        (sims.map SimPair.similarity).sum / (sims.length : ℚ) - 1/5) := by
    unfold multiProviderJudge
    dsimp only
    rw [hs, hE]
    rfl
  rw [h1]
  exact ⟨of_decide_eq_true, fun h => decide_eq_true h⟩

theorem verdict_diff_shape (p g : Bool) (entry : List JValue) (hne : entry ≠ []) :
    (if p then "pass"
     else if !(if g then entry else ([] : List JValue)).isEmpty then "fail"
     else "inconclusive") =
      (if p then "pass" else if g then "fail" else "inconclusive") := by
  cases p
  · cases g
    · rfl
    · rcases entry with _ | ⟨e, es⟩
      · exact absurd rfl hne
      · rfl
  · rfl

theorem multiProviderJudge_fields (sims : List SimPair) :
    (multiProviderJudge sims).passed =
      (decide ((1:ℚ)/2 ≤ (multiProviderJudge sims).avg) &&
        !(multiProviderJudge sims).minority_guilty) ∧
    (multiProviderJudge sims).verdict =
      (if (multiProviderJudge sims).passed then "pass"
       else if (multiProviderJudge sims).minority_guilty then "fail"
       else "inconclusive") := by
  refine ⟨rfl, ?_⟩
  exact verdict_diff_shape (multiProviderJudge sims).passed
    (multiProviderJudge sims).minority_guilty
    [JValue.obj [("type", .str "minority_pair"),
      ("pair", .str (multiProviderJudge sims).minority.pair),
      ("similarity", .num (multiProviderJudge sims).minority.similarity),
      ("message", .str "Low similarity (details elided)")]]
    (by simp)

theorem verdict_iff_helper (q : Prop) [Decidable q] (g : Bool) :
    ((if (decide q && !g) then "pass"
      else if g then "fail" else "inconclusive") = "pass" ↔ q ∧ g = false) ∧
    ((if (decide q && !g) then "pass"
      else if g then "fail" else "inconclusive") = "fail" ↔ g = true) ∧
    ((if (decide q && !g) then "pass"
      else if g then "fail" else "inconclusive") = "inconclusive" ↔
        ¬q ∧ g = false) := by
  cases g with
  | true => simp
  | false =>
    by_cases hq : q
    · simp [hq]
    · simp [hq]

/-- **C1**: with at least one pairwise similarity the minority pair is a
pair of minimum similarity among all recorded pairs, it is guilty
exactly when its similarity is below the mean minus 0.2, and the
verdict is `pass` iff the mean is at least 0.5 with no guilty minority,
`fail` iff the minority is guilty, and `inconclusive` iff the mean is
below 0.5 with no guilty minority; in particular similarities 0.95,
0.93 and 0.40 yield verdict `fail`. -/
theorem c1_multi_provider_consistency :
    (∀ sims : List SimPair, sims ≠ [] →
      (multiProviderJudge sims).minority ∈ sims ∧
      (∀ x ∈ sims, (multiProviderJudge sims).minority.similarity ≤ x.similarity) ∧
      (multiProviderJudge sims).avg =
        (sims.map SimPair.similarity).sum / (sims.length : ℚ) ∧
      ((multiProviderJudge sims).minority_guilty = true ↔
        (multiProviderJudge sims).minority.similarity <
          (multiProviderJudge sims).avg - 1/5) ∧
      ((multiProviderJudge sims).verdict = "pass" ↔
        (1:ℚ)/2 ≤ (multiProviderJudge sims).avg ∧
          (multiProviderJudge sims).minority_guilty = false) ∧
      ((multiProviderJudge sims).verdict = "fail" ↔
        (multiProviderJudge sims).minority_guilty = true) ∧
      ((multiProviderJudge sims).verdict = "inconclusive" ↔
        (multiProviderJudge sims).avg < 1/2 ∧
          (multiProviderJudge sims).minority_guilty = false)) ∧
    (multiProviderJudge simsExample).verdict = "fail" := by
  constructor
  · intro sims hne
    rcases hs : sortBySim sims with _ | ⟨m, rest⟩
    · exact absurd hs (sortBySim_ne_nil hne)
    have hE : sims.isEmpty = false := by
      cases sims
      · exact absurd rfl hne
      · rfl
    have hmin : (multiProviderJudge sims).minority = m :=
      multiProviderJudge_minority sims m rest hs
    have havg : (multiProviderJudge sims).avg =
        (sims.map SimPair.similarity).sum / (sims.length : ℚ) :=
      multiProviderJudge_avg sims hE
    have hmem : m ∈ sims := by
      refine (sortBySim_mem sims m).mp ?_
      rw [hs]
      exact List.mem_cons_self m rest
    have hminall : ∀ x ∈ sims, m.similarity ≤ x.similarity := by
      intro x hx
      have hx' : x ∈ sortBySim sims := (sortBySim_mem sims x).mpr hx
      rw [hs] at hx'
      rcases List.mem_cons.mp hx' with rfl | hx''
      · exact le_refl _
      · have hsorted := sortBySim_sorted sims
        rw [hs] at hsorted
        exact (List.pairwise_cons.mp hsorted).1 x hx''
    obtain ⟨hp, hv⟩ := multiProviderJudge_fields sims
    refine ⟨hmin ▸ hmem, ?_, havg, ?_, ?_, ?_, ?_⟩
    · rw [hmin]
      exact hminall
    · rw [hmin, havg]
      exact multiProviderJudge_guilty sims m rest hs hE
    · rw [hv, hp]
      exact (verdict_iff_helper _ _).1
    · rw [hv, hp]
      exact (verdict_iff_helper _ _).2.1
    · rw [hv, hp]
      constructor
      · intro h
        rcases (verdict_iff_helper _ _).2.2.mp h with ⟨hq, hg⟩
        exact ⟨lt_of_not_le hq, hg⟩
      · rintro ⟨h1, h2⟩
        exact (verdict_iff_helper _ _).2.2.mpr ⟨not_le.mpr h1, h2⟩
  · have hs : sortBySim simsExample =
        [⟨"b_c", 2/5⟩, ⟨"a_c", 93/100⟩, ⟨"a_b", 19/20⟩] := by
      norm_num [simsExample, sortBySim, insertBySim]
    have hE : simsExample.isEmpty = false := rfl
    have hg : (multiProviderJudge simsExample).minority_guilty = true := by
      refine (multiProviderJudge_guilty simsExample ⟨"b_c", 2/5⟩
        [⟨"a_c", 93/100⟩, ⟨"a_b", 19/20⟩] hs hE).mpr ?_
      norm_num [simsExample]
    obtain ⟨hp, hv⟩ := multiProviderJudge_fields simsExample
    rw [hv, hp, hg]
    rw [show (decide ((1:ℚ)/2 ≤ (multiProviderJudge simsExample).avg) && !true) = false
      from Bool.and_false _]
    rfl

/-- Witness for C1: the judgement characterization applied at the
concrete example list, whose fail-iff-guilty equivalence is
instantiated. -/
theorem c1_witness :
    simsExample ≠ [] ∧
    ((multiProviderJudge simsExample).verdict = "fail" ↔
      (multiProviderJudge simsExample).minority_guilty = true) :=
  ⟨by simp [simsExample],
    (c1_multi_provider_consistency.1 simsExample (by simp [simsExample])).2.2.2.2.2.1⟩

end Tingly
